import Mathlib

set_option maxRecDepth 8000

/-
  Shallow embedding of the secure file-sharing client (src/client/client.go).

  Cryptography is modelled symbolically: keys and UUIDs are terms of inductive
  types whose constructors mirror the derivations performed by the code
  (Argon2, HashKDF, fresh randomness), so distinct derivations never collide.
  A sealed blob records the encryption key, the MAC key and the plaintext
  entity; `CheckTag` succeeds exactly when the presented MAC key equals the
  sealing MAC key, and decryption succeeds exactly when the presented
  encryption key matches (wrong-key decryption yields bytes that fail to
  unmarshal in Go, an error here).  The json envelope `GenerateUUIDVal` /
  `UnpackValue` is the identity on this representation.  Randomness
  (`uuid.New`, random salts of `GetRandomKey`, key pairs of `GetAsynchKeys`)
  is drawn from a counter threaded through the state.  File contents are byte
  lists.  The chain walk of `LoadFile` is given fuel `ctr + 1`: the number of
  blocks ever written is bounded by the number of random draws, so the fuel is
  never exhausted on states produced by the client itself.
-/

namespace FileShare

/-- The two HashKDF purposes used for every sealed blob (constants of the Go file). -/
def ENCRYPT : String := "encrypt"

def MAC : String := "mac"

/-- Symbolic 16-byte secrets.  `root p u` is `Argon2Key(p, salt := u)`
(`GetSourceKey`); `derive k l` is `HashKDF(k, l)[:16]`; `fresh n` is a key
produced with a fresh random salt (`GetRandomKey`).  `nil` is Go's nil slice. -/
inductive Key where
  | nil
  | root (password username : String)
  | derive (src : Key) (label : String)
  | fresh (n : Nat)
  deriving DecidableEq, Repr

/-- Symbolic UUIDs.  `user u` is `Argon2Key(u, "UUID")[:16]` (`GetUserUUID`);
`derived k l` is `HashKDF(k, l)[:16]` (`GetAccessUUID`, `GetInvitationUUID`);
`fresh n` is `uuid.New()`; `nil` is `uuid.Nil`. -/
inductive UUID where
  | nil
  | user (username : String)
  | derived (src : Key) (label : String)
  | fresh (n : Nat)
  deriving DecidableEq, Repr

/-- A public key published in the keystore: either a PKE encryption key or a
signature verification key, identified by the draw that generated the pair. -/
inductive PubKey where
  | pke (n : Nat)
  | sig (n : Nat)
  deriving DecidableEq, Repr

/-- The exported (marshalled) fields of the Go `User` struct; the unexported
`sourceKey` field is not serialized by `json.Marshal`. -/
structure UserRecord where
  Username : String
  RSAkey : Nat
  Sigkey : Nat
  deriving DecidableEq, Repr

/-- An in-memory session: the Go `User` struct including the unexported
`sourceKey` (the root key re-derived at every login). -/
structure User where
  Username : String
  RSAkey : Nat
  Sigkey : Nat
  sourceKey : Key
  deriving DecidableEq, Repr

structure Access where
  MetaUUID : UUID
  MetaSourcekey : Key
  InvitationUUID : UUID
  InvitationSourcekey : Key
  InvitationList : UUID
  ListKey : Key
  IsOwner : Bool
  deriving DecidableEq, Repr

structure InvitationMeta where
  InvitationUUID : UUID
  InvitationSourcekey : Key
  deriving DecidableEq, Repr

structure Invitation where
  MetaUUID : UUID
  MetaSourcekey : Key
  deriving DecidableEq, Repr

structure Meta where
  Start : UUID
  Last : UUID
  FileSourcekey : Key
  deriving DecidableEq, Repr

structure File where
  Contents : List Nat
  Next : UUID
  deriving DecidableEq, Repr

/-- The Go `map[userlib.UUID][]byte` of `InvitationList`, as an association
list (invitation UUID to source key). -/
abbrev InvMap := List (UUID × Key)

/-- Plaintext entities that the client marshals into blobs. -/
inductive Entity where
  | user (r : UserRecord)
  | access (a : Access)
  | invitation (i : Invitation)
  | invList (l : InvMap)
  | meta (m : Meta)
  | file (f : File)
  deriving DecidableEq, Repr

/-- A datastore value.  `sealed k1 k2 e` is the `{Msg, Tag}` envelope produced
by `EncryptThenMac` (encryption key `k1`, MAC key `k2`); `signedPke pke sig im`
is the envelope produced by `EncryptThenSign` (PKE-encrypted to key pair `pke`,
signed with signing key pair `sig`). -/
inductive Value where
  | sealed (key1 key2 : Key) (e : Entity)
  | signedPke (pke : Nat) (sig : Nat) (im : InvitationMeta)
  deriving DecidableEq, Repr

/-- Association-list maps (the datastore and keystore are key-value stores;
`assocSet` overwrites in place, like `DatastoreSet` / `KeystoreSet`). -/
def assocGet {κ α : Type} [DecidableEq κ] : List (κ × α) → κ → Option α
  | [], _ => none
  | (k, v) :: rest, u => if k = u then some v else assocGet rest u

def assocSet {κ α : Type} [DecidableEq κ] : List (κ × α) → κ → α → List (κ × α)
  | [], u, w => [(u, w)]
  | (k, v) :: rest, u, w => if k = u then (u, w) :: rest else (k, v) :: assocSet rest u w

def assocDelete {κ α : Type} [DecidableEq κ] : List (κ × α) → κ → List (κ × α)
  | [], _ => []
  | (k, v) :: rest, u => if k = u then assocDelete rest u else (k, v) :: assocDelete rest u

/-- Global state: the datastore, the keystore, and the randomness counter. -/
structure State where
  datastore : List (UUID × Value)
  keystore : List (String × PubKey)
  ctr : Nat
  deriving DecidableEq, Repr

def State.dsGet (st : State) (k : UUID) : Option Value := assocGet st.datastore k

def State.dsSet (st : State) (k : UUID) (v : Value) : State :=
  { st with datastore := assocSet st.datastore k v }

def State.ksGet (st : State) (label : String) : Option PubKey := assocGet st.keystore label

def State.ksSet (st : State) (label : String) (pk : PubKey) : State :=
  { st with keystore := assocSet st.keystore label pk }

/-- Remove every File block from the datastore (used to express that an
operation reads no existing file blocks). -/
def State.dropFileBlocks (st : State) : State :=
  { st with datastore := st.datastore.filter fun p =>
      match p.2 with
      | .sealed _ _ (.file _) => false
      | _ => true }

def emptyState : State := ⟨[], [], 0⟩

def isOk {α : Type} : Except String α → Bool
  | .ok _ => true
  | .error _ => false

def isErr {α : Type} : Except String α → Bool
  | .ok _ => false
  | .error _ => true

-- Helper functions of client.go

def GetUserUUID (user : String) : UUID := .user user

def GetSourceKey (user password : String) : Key := .root password user

/-- `GetAsynchKeys`: generates a PKE key pair and a signature key pair; each
pair is identified by the counter draw that created it. -/
def GetAsynchKeys (st : State) : Nat × Nat × Nat × Nat × State :=
  (st.ctr, st.ctr, st.ctr + 1, st.ctr + 1, { st with ctr := st.ctr + 2 })

def GetTwoHASHKDFKeys (sourcekey : Key) (purpose1 purpose2 : String) : Key × Key :=
  (.derive sourcekey purpose1, .derive sourcekey purpose2)

def GetAccessUUID (user : User) (filename : String) : UUID :=
  .derived user.sourceKey filename

def GetInvitationUUID (owner : User) (sharee filename : String) : UUID :=
  .derived owner.sourceKey (owner.Username ++ filename ++ sharee)

/-- `GetRandomKey`: `HashKDF(user.sourceKey, RandomBytes(16))[:16]`; the fresh
random salt makes the result a fresh key. -/
def GetRandomKey (_user : User) (st : State) : Key × State :=
  (.fresh st.ctr, { st with ctr := st.ctr + 1 })

/-- `uuid.New()`. -/
def uuidNew (st : State) : UUID × State :=
  (.fresh st.ctr, { st with ctr := st.ctr + 1 })

def GetAccessKey (sourcekey : Key) (filename : String) : Key :=
  .derive sourcekey filename

/-- `EncryptThenMac` followed by `GenerateUUIDVal`: the `{Msg, Tag}` envelope. -/
def EncryptThenMac (txt : Entity) (key1 key2 : Key) : Value :=
  .sealed key1 key2 txt

/-- `EncryptThenMacAccess` is `EncryptThenMac` specialised to `Access`. -/
def EncryptThenMacAccess (txt : Access) (key1 key2 : Key) : Value :=
  .sealed key1 key2 (.access txt)

/-- `CheckTag`: the HMAC over the ciphertext verifies iff the presented MAC
key equals the sealing MAC key.  A `signedPke` envelope unpacks to
`(ciphertext, signature)`, and an HMAC never matches a signature. -/
def CheckTag (v : Value) (key2 : Key) : Except String Unit :=
  match v with
  | .sealed _ mk _ => if mk = key2 then .ok () else .error "integrity check failed"
  | .signedPke _ _ _ => .error "integrity check failed"

/-- `EncryptThenSign`: PKE-encrypt to the recipient's published public key and
sign with the sender's signing key. -/
def EncryptThenSign (txt : InvitationMeta) (user : String) (sk : Nat) (st : State) :
    Except String Value :=
  match st.ksGet (user ++ " public key") with
  | none => .error "KEYSTOREGET FAILED"
  | some (.pke n) => .ok (.signedPke n sk txt)
  | some (.sig _) => .error "ENCRYPTION FAILED"

/-- `CheckSignature`: verify under the sender's published verification key. -/
def CheckSignature (v : Value) (user : String) (st : State) : Except String Unit :=
  match st.ksGet (user ++ " signature key") with
  | none => .error "could not get sign key"
  | some (.sig n) =>
    match v with
    | .signedPke _ s _ => if s = n then .ok () else .error "signature verify failed"
    | .sealed _ _ _ => .error "signature verify failed"
  | some (.pke _) => .error "signature verify failed"

def DecryptUserMsg (v : Value) (key1 : Key) : Except String UserRecord :=
  match v with
  | .sealed ek _ (.user r) => if ek = key1 then .ok r else .error "failed to unmarshal user data"
  | _ => .error "failed to unmarshal user data"

def DecryptAccessMsg (v : Value) (key1 : Key) : Except String Access :=
  match v with
  | .sealed ek _ (.access a) => if ek = key1 then .ok a else .error "unmarshal failed"
  | _ => .error "unmarshal failed"

def DecryptMetaMsg (v : Value) (key1 : Key) : Except String Meta :=
  match v with
  | .sealed ek _ (.meta m) => if ek = key1 then .ok m else .error "unmarshal failed"
  | _ => .error "unmarshal failed"

def DecryptFileMsg (v : Value) (key1 : Key) : Except String File :=
  match v with
  | .sealed ek _ (.file f) => if ek = key1 then .ok f else .error "unmarshal failed"
  | _ => .error "unmarshal failed"

def DecryptInvitationMsg (v : Value) (key1 : Key) : Except String Invitation :=
  match v with
  | .sealed ek _ (.invitation i) => if ek = key1 then .ok i else .error "unmarshal failed"
  | _ => .error "unmarshal failed"

def DecryptInvitationListMsg (v : Value) (key1 : Key) : Except String InvMap :=
  match v with
  | .sealed ek _ (.invList l) => if ek = key1 then .ok l else .error "unmarshal failed"
  | _ => .error "unmarshal failed"

/-- `DecryptAsynchMsg`: PKE decryption with the caller's private key. -/
def DecryptAsynchMsg (v : Value) (pk : Nat) : Except String InvitationMeta :=
  match v with
  | .signedPke n _ im => if n = pk then .ok im else .error "DECRYPTION FAILED"
  | .sealed _ _ _ => .error "DECRYPTION FAILED"

-- Go map operations on the invitation list

def invFind (m : InvMap) (u : UUID) : Option Key := assocGet m u

def invSet (m : InvMap) (u : UUID) (w : Key) : InvMap := assocSet m u w

def invDelete (m : InvMap) (u : UUID) : InvMap := assocDelete m u

-- Client API

def InitUser (username password : String) (st : State) : Except String User × State :=
  if username = "" then (.error "username cannot be empty", st) else
  let userUUID := GetUserUUID username
  match st.dsGet userUUID with
  | some _ => (.error "username already exists", st)
  | none =>
    let sourceKey := GetSourceKey username password
    let (rsaPublicKey, rsaPrivateKey, dsSignKey, dsVerifyKey, st1) := GetAsynchKeys st
    let (encryptKey, hmacKey) := GetTwoHASHKDFKeys sourceKey ENCRYPT MAC
    let st2 := (st1.ksSet (username ++ " public key") (.pke rsaPublicKey)).ksSet
      (username ++ " signature key") (.sig dsVerifyKey)
    let userdata : User := ⟨username, rsaPrivateKey, dsSignKey, sourceKey⟩
    let value := EncryptThenMac (.user ⟨username, rsaPrivateKey, dsSignKey⟩) encryptKey hmacKey
    (.ok userdata, st2.dsSet userUUID value)

def GetUser (username password : String) (st : State) : Except String User :=
  if username = "" then .error "username cannot be empty" else
  let userUUID := GetUserUUID username
  match st.dsGet userUUID with
  | none => .error "username does not exist"
  | some v =>
    let sourceKey := GetSourceKey username password
    let (encryptKey, hmacKey) := GetTwoHASHKDFKeys sourceKey ENCRYPT MAC
    match CheckTag v hmacKey with
    | .error _ => .error "data integrity check failed: either wrong credentials or tampering"
    | .ok _ =>
      match DecryptUserMsg v encryptKey with
      | .error _ => .error "failed to unmarshal user data"
      | .ok r =>
        if r.Username = username then .ok ⟨r.Username, r.RSAkey, r.Sigkey, sourceKey⟩
        else .error "retrieved username does not match expected username"

/-- `AddFileToDatabase`: write one File block at `fileUUID` holding `content`
and a freshly drawn `Next`; return that fresh UUID. -/
def AddFileToDatabase (fileUUID : UUID) (fileSourceKey : Key) (content : List Nat)
    (st : State) : UUID × State :=
  let (nextFileUUID, st1) := uuidNew st
  let (fileEncryptKey, fileHMACKey) := GetTwoHASHKDFKeys fileSourceKey ENCRYPT MAC
  let value := EncryptThenMac (.file ⟨content, nextFileUUID⟩) fileEncryptKey fileHMACKey
  (nextFileUUID, st1.dsSet fileUUID value)

/-- `GetMetaUUIDAndSourceKey`: resolve an Access to `(metaUUID, metaSourceKey)`;
a sharee Access goes through its Invitation blob, an owner Access holds them
directly. -/
def GetMetaUUIDAndSourceKey (accessStruct : Access) (st : State) :
    Except String (UUID × Key) :=
  if !accessStruct.IsOwner then
    let invitationUUID := accessStruct.InvitationUUID
    let invitationSourceKey := accessStruct.InvitationSourcekey
    let (invitationEncryptKey, invitationHMACKey) :=
      GetTwoHASHKDFKeys invitationSourceKey ENCRYPT MAC
    match st.dsGet invitationUUID with
    | none => .error "invitation does not exist"
    | some v =>
      match CheckTag v invitationHMACKey with
      | .error _ => .error "integrity check failed: Invitation struct has unauthorized modifications"
      | .ok _ =>
        match DecryptInvitationMsg v invitationEncryptKey with
        | .error _ => .error "could not decrypt Invitation Struct"
        | .ok invitationStruct => .ok (invitationStruct.MetaUUID, invitationStruct.MetaSourcekey)
  else .ok (accessStruct.MetaUUID, accessStruct.MetaSourcekey)

def StoreFile (userdata : User) (filename : String) (content : List Nat)
    (st : State) : Except String Unit × State :=
  let accessUUID := GetAccessUUID userdata filename
  let accessSourceKey := GetAccessKey userdata.sourceKey filename
  let (accessEncryptKey, accessHMACKey) := GetTwoHASHKDFKeys accessSourceKey ENCRYPT MAC
  match st.dsGet accessUUID with
  | some accessValue =>
    match CheckTag accessValue accessHMACKey with
    | .error _ => (.error "integrity check failed: Access Struct has been tampered with", st)
    | .ok _ =>
      match DecryptAccessMsg accessValue accessEncryptKey with
      | .error _ => (.error "could not decrypt Access Struct", st)
      | .ok accessStruct =>
        match GetMetaUUIDAndSourceKey accessStruct st with
        | .error _ => (.error "could not get Meta UUID and sourcekey", st)
        | .ok (metaUUID, metaSourceKey) =>
          let (metaEncryptKey, metaHMACKey) := GetTwoHASHKDFKeys metaSourceKey ENCRYPT MAC
          match st.dsGet metaUUID with
          | none => (.error "could not find Meta data in datastore", st)
          | some metaValue =>
            match CheckTag metaValue metaHMACKey with
            | .error _ => (.error "integrity check failed: Meta struct has been tampered with", st)
            | .ok _ =>
              match DecryptMetaMsg metaValue metaEncryptKey with
              | .error _ => (.error "failed to decrypt Meta struct", st)
              | .ok metaStruct =>
                let startoffile := metaStruct.Start
                let fileSourceKey := metaStruct.FileSourcekey
                let (newNextUUID, st1) := AddFileToDatabase startoffile fileSourceKey content st
                let metaStruct1 := { metaStruct with Last := newNextUUID }
                let metaValue1 := EncryptThenMac (.meta metaStruct1) metaEncryptKey metaHMACKey
                (.ok (), st1.dsSet metaUUID metaValue1)
  | none =>
    let (fileUUID, st1) := uuidNew st
    let (fileSourceKey, st2) := GetRandomKey userdata st1
    let (nextFileUUID, st3) := AddFileToDatabase fileUUID fileSourceKey content st2
    let (metaUUID, st4) := uuidNew st3
    let (metaSourceKey, st5) := GetRandomKey userdata st4
    let (metaEncryptKey, metaHMACKey) := GetTwoHASHKDFKeys metaSourceKey ENCRYPT MAC
    let metaStruct : Meta := ⟨fileUUID, nextFileUUID, fileSourceKey⟩
    let metaValue := EncryptThenMac (.meta metaStruct) metaEncryptKey metaHMACKey
    let st6 := st5.dsSet metaUUID metaValue
    let (userListKey, st7) := GetRandomKey userdata st6
    let invitationList : InvMap := []
    let (invitationListEncryptKey, invitationListHMACKey) :=
      GetTwoHASHKDFKeys userListKey ENCRYPT MAC
    let userListValue :=
      EncryptThenMac (.invList invitationList) invitationListEncryptKey invitationListHMACKey
    let (inviteListUUID, st8) := uuidNew st7
    let st9 := st8.dsSet inviteListUUID userListValue
    let ownerStruct : Access :=
      { MetaUUID := metaUUID
        MetaSourcekey := metaSourceKey
        InvitationUUID := .nil
        InvitationSourcekey := .nil
        InvitationList := inviteListUUID
        ListKey := userListKey
        IsOwner := true }
    let ownerValue := EncryptThenMacAccess ownerStruct accessEncryptKey accessHMACKey
    (.ok (), st9.dsSet accessUUID ownerValue)

/-- The chain walk of `LoadFile`: from `currentUUID` to `endUUID`,
accumulating block contents.  The Go loop is unbounded; `fuel` only limits
walks longer than the number of random draws ever made, which cannot happen
on client-produced states. -/
def LoadChain (st : State) (fileEncryptKey fileHMACKey : Key) :
    Nat → UUID → UUID → List Nat → Except String (List Nat)
  | 0, _, _, _ => .error "File data block not found"
  | fuel + 1, currentUUID, endUUID, fullContent =>
    if currentUUID = endUUID then .ok fullContent
    else
      match st.dsGet currentUUID with
      | none => .error "File data block not found"
      | some v =>
        match CheckTag v fileHMACKey with
        | .error _ => .error "integrity check failed: File has unauthorized modifications"
        | .ok _ =>
          match DecryptFileMsg v fileEncryptKey with
          | .error _ => .error "File could not be decrypted"
          | .ok fileStruct =>
            LoadChain st fileEncryptKey fileHMACKey fuel fileStruct.Next endUUID
              (fullContent ++ fileStruct.Contents)

def LoadFile (userdata : User) (filename : String) (st : State) :
    Except String (List Nat) :=
  let accessUUID := GetAccessUUID userdata filename
  match st.dsGet accessUUID with
  | none => .error "file does not exist in user namespace"
  | some accessValue =>
    let accessSourceKey := GetAccessKey userdata.sourceKey filename
    let (accessEncryptKey, accessHMACKey) := GetTwoHASHKDFKeys accessSourceKey ENCRYPT MAC
    match CheckTag accessValue accessHMACKey with
    | .error _ => .error "integrity check failed: Access Struct has been tampered with"
    | .ok _ =>
      match DecryptAccessMsg accessValue accessEncryptKey with
      | .error _ => .error "could not decrypt access message"
      | .ok accessStruct =>
        match GetMetaUUIDAndSourceKey accessStruct st with
        | .error _ => .error "could not get Meta UUID and sourcekey"
        | .ok (metaUUID, metaSourceKey) =>
          let (metaEncryptKey, metaHMACKey) := GetTwoHASHKDFKeys metaSourceKey ENCRYPT MAC
          match st.dsGet metaUUID with
          | none => .error "could not find Meta data in datastore"
          | some metaValue =>
            match CheckTag metaValue metaHMACKey with
            | .error _ => .error "integrity check failed: Meta struct has been tampered with"
            | .ok _ =>
              match DecryptMetaMsg metaValue metaEncryptKey with
              | .error _ => .error "failed to decrypt Meta struct"
              | .ok metaStruct =>
                let (fileEncryptKey, fileHMACKey) :=
                  GetTwoHASHKDFKeys metaStruct.FileSourcekey ENCRYPT MAC
                LoadChain st fileEncryptKey fileHMACKey (st.ctr + 1)
                  metaStruct.Start metaStruct.Last []

def AppendToFile (userdata : User) (filename : String) (content : List Nat)
    (st : State) : Except String Unit × State :=
  let accessUUID := GetAccessUUID userdata filename
  match st.dsGet accessUUID with
  | none => (.error "File does not exist in user namespace", st)
  | some accessValue =>
    let accessSourceKey := GetAccessKey userdata.sourceKey filename
    let (accessEncryptKey, accessHMACKey) := GetTwoHASHKDFKeys accessSourceKey ENCRYPT MAC
    match CheckTag accessValue accessHMACKey with
    | .error _ => (.error "integrity check failed: Access Struct has been tampered with", st)
    | .ok _ =>
      match DecryptAccessMsg accessValue accessEncryptKey with
      | .error _ => (.error "could not decrypt Access Struct", st)
      | .ok accessStruct =>
        match GetMetaUUIDAndSourceKey accessStruct st with
        | .error _ => (.error "could not get Meta UUID and sourcekey", st)
        | .ok (metaUUID, metaSourceKey) =>
          let (metaEncryptKey, metaHMACKey) := GetTwoHASHKDFKeys metaSourceKey ENCRYPT MAC
          match st.dsGet metaUUID with
          | none => (.error "could not find Meta data in datastore", st)
          | some metaValue =>
            match CheckTag metaValue metaHMACKey with
            | .error _ => (.error "integrity check failed: Meta struct has been tampered with", st)
            | .ok _ =>
              match DecryptMetaMsg metaValue metaEncryptKey with
              | .error _ => (.error "failed to decrypt Meta struct", st)
              | .ok metaStruct =>
                let fileSourceKey := metaStruct.FileSourcekey
                let lastUUID := metaStruct.Last
                let (nextFileUUID, st1) := AddFileToDatabase lastUUID fileSourceKey content st
                let metaStruct1 := { metaStruct with Last := nextFileUUID }
                let metaValue1 := EncryptThenMac (.meta metaStruct1) metaEncryptKey metaHMACKey
                (.ok (), st1.dsSet metaUUID metaValue1)

def CreateInvitation (userdata : User) (filename recipientUsername : String)
    (st : State) : Except String UUID × State :=
  match st.ksGet (recipientUsername ++ " public key") with
  | none => (.error "recipient user does not exist in the system", st)
  | some _ =>
    if recipientUsername = userdata.Username then
      (.error "user cannot send invitation to themselves", st)
    else
      let accessUUID := GetAccessUUID userdata filename
      match st.dsGet accessUUID with
      | none => (.error "file does not exist in user namespace", st)
      | some accessValue =>
        let accessSourceKey := GetAccessKey userdata.sourceKey filename
        let (accessEncryptKey, accessHMACKey) := GetTwoHASHKDFKeys accessSourceKey ENCRYPT MAC
        match CheckTag accessValue accessHMACKey with
        | .error _ => (.error "integrity check failed: Access Struct has been tampered with", st)
        | .ok _ =>
          match DecryptAccessMsg accessValue accessEncryptKey with
          | .error _ => (.error "could not decrypt Access Struct", st)
          | .ok accessStruct =>
            match GetMetaUUIDAndSourceKey accessStruct st with
            | .error _ => (.error "could not get Meta UUID and sourcekey", st)
            | .ok (metaUUID, metaSourceKey) =>
              let (invitationSourceKey, st1) := GetRandomKey userdata st
              let (inviteEncryptKey, inviteHMACKey) :=
                GetTwoHASHKDFKeys invitationSourceKey ENCRYPT MAC
              let invitation : Invitation := ⟨metaUUID, metaSourceKey⟩
              let invitationValue :=
                EncryptThenMac (.invitation invitation) inviteEncryptKey inviteHMACKey
              let invitationUUID := GetInvitationUUID userdata recipientUsername filename
              let st2 := st1.dsSet invitationUUID invitationValue
              let (invitationMetaIdent, st3) := uuidNew st2
              let invitationMeta : InvitationMeta := ⟨invitationUUID, invitationSourceKey⟩
              match EncryptThenSign invitationMeta recipientUsername userdata.Sigkey st3 with
              | .error e => (.error e, st3)
              | .ok invitationMetaValue =>
                let st4 := st3.dsSet invitationMetaIdent invitationMetaValue
                if accessStruct.IsOwner then
                  let inviteListUUID := accessStruct.InvitationList
                  let inviteListKey := accessStruct.ListKey
                  match st4.dsGet inviteListUUID with
                  | none => (.error "invalid or missing inviteListData UUID", st4)
                  | some inviteListData =>
                    let (inviteListEncryptKey, inviteListHMACKey) :=
                      GetTwoHASHKDFKeys inviteListKey ENCRYPT MAC
                    match CheckTag inviteListData inviteListHMACKey with
                    | .error _ =>
                      (.error "integrity check failed: invite struct has been tampered with", st4)
                    | .ok _ =>
                      match DecryptInvitationListMsg inviteListData inviteListEncryptKey with
                      | .error e => (.error e, st4)
                      | .ok invitationListValue =>
                        let invitationListValue1 :=
                          invSet invitationListValue invitationUUID invitationSourceKey
                        let inviteListValue1 :=
                          EncryptThenMac (.invList invitationListValue1)
                            inviteListEncryptKey inviteListHMACKey
                        (.ok invitationMetaIdent, st4.dsSet inviteListUUID inviteListValue1)
                else
                  (.ok invitationMetaIdent, st4)

def AcceptInvitation (userdata : User) (senderUsername : String)
    (invitationPtr : UUID) (filename : String) (st : State) :
    Except String Unit × State :=
  let accessUUID := GetAccessUUID userdata filename
  match st.dsGet accessUUID with
  | some _ => (.error "recipient already has a file with the chosen filename", st)
  | none =>
    match st.dsGet invitationPtr with
    | none => (.error "no invitation meta", st)
    | some invitationMetaValue =>
      match CheckSignature invitationMetaValue senderUsername st with
      | .error _ => (.error "failed to verify invitation signature", st)
      | .ok _ =>
        match DecryptAsynchMsg invitationMetaValue userdata.RSAkey with
        | .error _ => (.error "failed to decrypt invitation", st)
        | .ok invitationMetaStruct =>
          let invitationUUID := invitationMetaStruct.InvitationUUID
          let invitationSourceKey := invitationMetaStruct.InvitationSourcekey
          match st.dsGet invitationUUID with
          | none => (.error "invalid or missing invitation UUID", st)
          | some inviteData =>
            let (_, inviteHMACKey) := GetTwoHASHKDFKeys invitationSourceKey ENCRYPT MAC
            match CheckTag inviteData inviteHMACKey with
            | .error _ =>
              (.error "integrity check failed: invite struct has been tampered with", st)
            | .ok _ =>
              let accessStruct : Access :=
                { MetaUUID := .nil
                  MetaSourcekey := .nil
                  InvitationUUID := invitationUUID
                  InvitationSourcekey := invitationSourceKey
                  InvitationList := .nil
                  ListKey := .nil
                  IsOwner := false }
              let accessSourceKey := GetAccessKey userdata.sourceKey filename
              let (accessEncKey, accessHMACKey) := GetTwoHASHKDFKeys accessSourceKey ENCRYPT MAC
              let accessData := EncryptThenMac (.access accessStruct) accessEncKey accessHMACKey
              (.ok (), st.dsSet accessUUID accessData)

/-- The rewrite loop of `RevokeAccess`: re-seal every surviving Invitation at
its UUID, under its existing source key, pointing at the new meta source key. -/
def RewriteInvitations (metaUUID : UUID) (metaSourceKey : Key) :
    InvMap → State → State
  | [], st => st
  | (invitationUUID, invitationSourceKey) :: rest, st =>
    let (invitationEncryptKey, invitationHMACKey) :=
      GetTwoHASHKDFKeys invitationSourceKey ENCRYPT MAC
    let invitationStruct : Invitation := ⟨metaUUID, metaSourceKey⟩
    let invitationValue :=
      EncryptThenMac (.invitation invitationStruct) invitationEncryptKey invitationHMACKey
    RewriteInvitations metaUUID metaSourceKey rest (st.dsSet invitationUUID invitationValue)

def RevokeAccess (userdata : User) (filename recipientUsername : String)
    (st : State) : Except String Unit × State :=
  let accessUUID := GetAccessUUID userdata filename
  match st.dsGet accessUUID with
  | none => (.error "file does not exist in user namespace", st)
  | some accessValue =>
    let accessSourceKey := GetAccessKey userdata.sourceKey filename
    let (accessEncryptKey, accessHMACKey) := GetTwoHASHKDFKeys accessSourceKey ENCRYPT MAC
    match CheckTag accessValue accessHMACKey with
    | .error _ => (.error "integrity check failed: Access Struct has been tampered with", st)
    | .ok _ =>
      match DecryptAccessMsg accessValue accessEncryptKey with
      | .error _ => (.error "could not decrypt Access Struct", st)
      | .ok accessStruct =>
        if !accessStruct.IsOwner then (.error "only the owner can revoke access", st)
        else
          match GetMetaUUIDAndSourceKey accessStruct st with
          | .error _ => (.error "could not get Meta UUID and sourcekey", st)
          | .ok (metaUUID, metaSourceKey0) =>
            let (_, metaHMACKey0) := GetTwoHASHKDFKeys metaSourceKey0 ENCRYPT MAC
            match st.dsGet metaUUID with
            | none => (.error "could not find Meta data in datastore", st)
            | some metaValue0 =>
              match CheckTag metaValue0 metaHMACKey0 with
              | .error _ =>
                (.error "integrity check failed: Meta struct has been tampered with", st)
              | .ok _ =>
                match LoadFile userdata filename st with
                | .error _ => (.error "failed to load file contents", st)
                | .ok content =>
                  let (fileUUID, st1) := uuidNew st
                  let (fileSourceKey, st2) := GetRandomKey userdata st1
                  let (nextFileUUID, st3) := AddFileToDatabase fileUUID fileSourceKey content st2
                  let metaStruct : Meta := ⟨fileUUID, nextFileUUID, fileSourceKey⟩
                  let (metaSourceKey, st4) := GetRandomKey userdata st3
                  let (metaEncryptKey, metaHMACKey) := GetTwoHASHKDFKeys metaSourceKey ENCRYPT MAC
                  let metaValue := EncryptThenMac (.meta metaStruct) metaEncryptKey metaHMACKey
                  let st5 := st4.dsSet metaUUID metaValue
                  let invitationListUUID := accessStruct.InvitationList
                  let invitationListKey := accessStruct.ListKey
                  let (invitationListEncryptKey, invitationListHMACKey) :=
                    GetTwoHASHKDFKeys invitationListKey ENCRYPT MAC
                  match st5.dsGet invitationListUUID with
                  | none => (.error "failed to get invitation list from Datastore", st5)
                  | some invitationListValue =>
                    match CheckTag invitationListValue invitationListHMACKey with
                    | .error _ =>
                      (.error "integrity check failed: detected unauthorized modifications", st5)
                    | .ok _ =>
                      match DecryptInvitationListMsg invitationListValue
                          invitationListEncryptKey with
                      | .error _ => (.error "failed to decrypt invitation list struct", st5)
                      | .ok invitationListStruct =>
                        let recipientInvitationUUID :=
                          GetInvitationUUID userdata recipientUsername filename
                        match invFind invitationListStruct recipientInvitationUUID with
                        | none => (.error "filename was not shared with recipientUsername", st5)
                        | some _ =>
                          let invitations :=
                            invDelete invitationListStruct recipientInvitationUUID
                          let st6 := RewriteInvitations metaUUID metaSourceKey invitations st5
                          let invitationListValue1 :=
                            EncryptThenMac (.invList invitations)
                              invitationListEncryptKey invitationListHMACKey
                          let st7 := st6.dsSet invitationListUUID invitationListValue1
                          let accessStruct1 := { accessStruct with MetaSourcekey := metaSourceKey }
                          let updatedOwnerValue :=
                            EncryptThenMac (.access accessStruct1) accessEncryptKey accessHMACKey
                          (.ok (), st7.dsSet accessUUID updatedOwnerValue)

-- Concrete scenarios used to settle the claims: fixed users and filenames,
-- file contents universally quantified (they never influence control flow).

def getOkUser (e : Except String User) : User :=
  match e with
  | .ok u => u
  | .error _ => ⟨"", 0, 0, .nil⟩

def getOkUUID (e : Except String UUID) : UUID :=
  match e with
  | .ok u => u
  | .error _ => .nil

def getOkAccess (e : Except String Access) : Access :=
  match e with
  | .ok a => a
  | .error _ => ⟨.nil, .nil, .nil, .nil, .nil, .nil, false⟩

def getSomeValue (v : Option Value) : Value :=
  match v with
  | some w => w
  | none => .sealed .nil .nil (.invList [])

def pw : String := "password"

def regAlice : Except String User × State := InitUser "alice" pw emptyState

def aliceU : User := getOkUser regAlice.1

def stAlice : State := regAlice.2

def regBob : Except String User × State := InitUser "bob" pw stAlice

def bobU : User := getOkUser regBob.1

def stBob : State := regBob.2

def regCharles : Except String User × State := InitUser "charles" pw stBob

def charlesU : User := getOkUser regCharles.1

def stCharles : State := regCharles.2

def regDoris : Except String User × State := InitUser "doris" pw stCharles

def dorisU : User := getOkUser regDoris.1

def stUsers : State := regDoris.2

-- Sharing scenario (C1, C5): alice owns "f"; direct sharees bob (as "bf") and
-- doris (as "df"); bob re-shares to charles (as "cf"); then alice revokes bob.

def shStore (c : List Nat) : State := (StoreFile aliceU "f" c stUsers).2

def shInvBob (c : List Nat) : Except String UUID × State :=
  CreateInvitation aliceU "f" "bob" (shStore c)

def shTokBob (c : List Nat) : UUID := getOkUUID (shInvBob c).1

def shAccBob (c : List Nat) : State :=
  (AcceptInvitation bobU "alice" (shTokBob c) "bf" (shInvBob c).2).2

def shInvDoris (c : List Nat) : Except String UUID × State :=
  CreateInvitation aliceU "f" "doris" (shAccBob c)

def shTokDoris (c : List Nat) : UUID := getOkUUID (shInvDoris c).1

def shAccDoris (c : List Nat) : State :=
  (AcceptInvitation dorisU "alice" (shTokDoris c) "df" (shInvDoris c).2).2

def shInvCharles (c : List Nat) : Except String UUID × State :=
  CreateInvitation bobU "bf" "charles" (shAccDoris c)

def shTokCharles (c : List Nat) : UUID := getOkUUID (shInvCharles c).1

def shAccCharles (c : List Nat) : State :=
  (AcceptInvitation charlesU "bob" (shTokCharles c) "cf" (shInvCharles c).2).2

def shRevoke (c : List Nat) : Except String Unit × State :=
  RevokeAccess aliceU "f" "bob" (shAccCharles c)

def shRev (c : List Nat) : State := (shRevoke c).2

/-- Bob's sharee Access as it sits in the datastore after the revocation
(unchanged by it): the capability bob retains. -/
def shBobAccess (c : List Nat) : Access :=
  getOkAccess (DecryptAccessMsg
    (getSomeValue ((shRev c).dsGet (GetAccessUUID bobU "bf")))
    (.derive (GetAccessKey bobU.sourceKey "bf") ENCRYPT))

-- Store/append scenario (C2): alice owns "d", shares it with bob, then
-- appends twice.

def c2Store (c1 : List Nat) : State := (StoreFile aliceU "d" c1 stBob).2

def c2Inv (c1 : List Nat) : Except String UUID × State :=
  CreateInvitation aliceU "d" "bob" (c2Store c1)

def c2Acc (c1 : List Nat) : State :=
  (AcceptInvitation bobU "alice" (getOkUUID (c2Inv c1).1) "bd" (c2Inv c1).2).2

def c2App1 (c1 c2 : List Nat) : Except String Unit × State :=
  AppendToFile aliceU "d" c2 (c2Acc c1)

def c2App2 (c1 c2 c3 : List Nat) : Except String Unit × State :=
  AppendToFile aliceU "d" c3 (c2App1 c1 c2).2

-- Overwrite scenario (C3): alice owns "g", shares it with bob, then
-- overwrites twice.

def c3Store0 (c0 : List Nat) : State := (StoreFile aliceU "g" c0 stBob).2

def c3Inv (c0 : List Nat) : Except String UUID × State :=
  CreateInvitation aliceU "g" "bob" (c3Store0 c0)

def c3Acc (c0 : List Nat) : State :=
  (AcceptInvitation bobU "alice" (getOkUUID (c3Inv c0).1) "bg" (c3Inv c0).2).2

def c3Store1 (c0 c1 : List Nat) : State := (StoreFile aliceU "g" c1 (c3Acc c0)).2

def c3Store2 (c0 c1 c2 : List Nat) : Except String Unit × State :=
  StoreFile aliceU "g" c2 (c3Store1 c0 c1)

-- Failed-revocation scenario (C4): alice owns "h" and never shared it; she
-- revokes bob, who is not in the invitation list.

def c4Store (c : List Nat) : State := (StoreFile aliceU "h" c stBob).2

def c4Revoke (c : List Nat) : Except String Unit × State :=
  RevokeAccess aliceU "h" "bob" (c4Store c)

-- Double-accept scenario (C6): alice owns "k" and invites bob, who accepts
-- the same token twice under two filenames.

def c6Store (c : List Nat) : State := (StoreFile aliceU "k" c stBob).2

def c6Inv (c : List Nat) : Except String UUID × State :=
  CreateInvitation aliceU "k" "bob" (c6Store c)

def c6Tok (c : List Nat) : UUID := getOkUUID (c6Inv c).1

def c6Acc1 (c : List Nat) : Except String Unit × State :=
  AcceptInvitation bobU "alice" (c6Tok c) "bk" (c6Inv c).2

def c6Acc2 (c : List Nat) : Except String Unit × State :=
  AcceptInvitation bobU "alice" (c6Tok c) "bk2" (c6Acc1 c).2

-- Invitation-precondition scenario (C7): alice owns "m".

def c7Store (c : List Nat) : State := (StoreFile aliceU "m" c stBob).2

-- Generic lemmas about association-list stores, used for frame properties.

theorem assocGet_assocSet_self {κ α : Type} [DecidableEq κ] (l : List (κ × α)) (k : κ) (v : α) :
    assocGet (assocSet l k v) k = some v := by
  induction l with
  | nil => simp [assocSet, assocGet]
  | cons hd tl ih =>
    by_cases hk : hd.1 = k
    · simp [assocSet, assocGet, hk]
    · simp [assocSet, assocGet, hk, ih]

theorem assocGet_assocSet_ne {κ α : Type} [DecidableEq κ] (l : List (κ × α)) (k u : κ) (v : α)
    (h : u ≠ k) :
    assocGet (assocSet l k v) u = assocGet l u := by
  induction l with
  | nil => simp [assocSet, assocGet, Ne.symm h]
  | cons hd tl ih =>
    by_cases hk : hd.1 = k
    · simp [assocSet, assocGet, hk, Ne.symm h]
    · by_cases hu : hd.1 = u
      · simp [assocSet, assocGet, hk, hu, h]
      · simp [assocSet, assocGet, hk, hu, ih]

theorem dsGet_dsSet_self (st : State) (k : UUID) (v : Value) :
    (st.dsSet k v).dsGet k = some v := by
  simp [State.dsGet, State.dsSet, assocGet_assocSet_self]

theorem dsGet_dsSet_ne (st : State) (k u : UUID) (v : Value) (h : u ≠ k) :
    (st.dsSet k v).dsGet u = st.dsGet u := by
  simp [State.dsGet, State.dsSet, assocGet_assocSet_ne _ _ _ _ h]

theorem dsGet_setCtr (st : State) (n : Nat) (u : UUID) :
    ({ st with ctr := n } : State).dsGet u = st.dsGet u := rfl

-- Evaluated forms of the scenario states.  Every step is a single client
-- operation applied to the explicit literal of the previous state, so each
-- equation is checked by plain definitional evaluation.

theorem aliceU_eq : aliceU = ⟨"alice", 0, 1, Key.root "password" "alice"⟩ := by
  rfl

theorem bobU_eq : bobU = ⟨"bob", 2, 3, Key.root "password" "bob"⟩ := by
  rfl

theorem charlesU_eq : charlesU = ⟨"charles", 4, 5, Key.root "password" "charles"⟩ := by
  rfl

theorem dorisU_eq : dorisU = ⟨"doris", 6, 7, Key.root "password" "doris"⟩ := by
  rfl

theorem stAlice_eq :
    stAlice =
{ datastore := [(UUID.user "alice",
                 Value.sealed
                   (Key.derive (Key.root "password" "alice") "encrypt")
                   (Key.derive (Key.root "password" "alice") "mac")
                   (Entity.user { Username := "alice", RSAkey := 0, Sigkey := 1 }))],
  keystore := [("alice public key", PubKey.pke 0), ("alice signature key", PubKey.sig 1)],
  ctr := 2 } := by
  rfl

theorem stBob_eq :
    stBob =
{ datastore := [(UUID.user "alice",
                 Value.sealed
                   (Key.derive (Key.root "password" "alice") "encrypt")
                   (Key.derive (Key.root "password" "alice") "mac")
                   (Entity.user { Username := "alice", RSAkey := 0, Sigkey := 1 })),
                (UUID.user "bob",
                 Value.sealed
                   (Key.derive (Key.root "password" "bob") "encrypt")
                   (Key.derive (Key.root "password" "bob") "mac")
                   (Entity.user { Username := "bob", RSAkey := 2, Sigkey := 3 }))],
  keystore := [("alice public key", PubKey.pke 0),
               ("alice signature key", PubKey.sig 1),
               ("bob public key", PubKey.pke 2),
               ("bob signature key", PubKey.sig 3)],
  ctr := 4 } := by
  unfold stBob regBob
  rw [stAlice_eq]
  rfl

theorem stCharles_eq :
    stCharles =
{ datastore := [(UUID.user "alice",
                 Value.sealed
                   (Key.derive (Key.root "password" "alice") "encrypt")
                   (Key.derive (Key.root "password" "alice") "mac")
                   (Entity.user { Username := "alice", RSAkey := 0, Sigkey := 1 })),
                (UUID.user "bob",
                 Value.sealed
                   (Key.derive (Key.root "password" "bob") "encrypt")
                   (Key.derive (Key.root "password" "bob") "mac")
                   (Entity.user { Username := "bob", RSAkey := 2, Sigkey := 3 })),
                (UUID.user "charles",
                 Value.sealed
                   (Key.derive (Key.root "password" "charles") "encrypt")
                   (Key.derive (Key.root "password" "charles") "mac")
                   (Entity.user { Username := "charles", RSAkey := 4, Sigkey := 5 }))],
  keystore := [("alice public key", PubKey.pke 0),
               ("alice signature key", PubKey.sig 1),
               ("bob public key", PubKey.pke 2),
               ("bob signature key", PubKey.sig 3),
               ("charles public key", PubKey.pke 4),
               ("charles signature key", PubKey.sig 5)],
  ctr := 6 } := by
  unfold stCharles regCharles
  rw [stBob_eq]
  rfl

theorem stUsers_eq :
    stUsers =
{ datastore := [(UUID.user "alice",
                 Value.sealed
                   (Key.derive (Key.root "password" "alice") "encrypt")
                   (Key.derive (Key.root "password" "alice") "mac")
                   (Entity.user { Username := "alice", RSAkey := 0, Sigkey := 1 })),
                (UUID.user "bob",
                 Value.sealed
                   (Key.derive (Key.root "password" "bob") "encrypt")
                   (Key.derive (Key.root "password" "bob") "mac")
                   (Entity.user { Username := "bob", RSAkey := 2, Sigkey := 3 })),
                (UUID.user "charles",
                 Value.sealed
                   (Key.derive (Key.root "password" "charles") "encrypt")
                   (Key.derive (Key.root "password" "charles") "mac")
                   (Entity.user { Username := "charles", RSAkey := 4, Sigkey := 5 })),
                (UUID.user "doris",
                 Value.sealed
                   (Key.derive (Key.root "password" "doris") "encrypt")
                   (Key.derive (Key.root "password" "doris") "mac")
                   (Entity.user { Username := "doris", RSAkey := 6, Sigkey := 7 }))],
  keystore := [("alice public key", PubKey.pke 0),
               ("alice signature key", PubKey.sig 1),
               ("bob public key", PubKey.pke 2),
               ("bob signature key", PubKey.sig 3),
               ("charles public key", PubKey.pke 4),
               ("charles signature key", PubKey.sig 5),
               ("doris public key", PubKey.pke 6),
               ("doris signature key", PubKey.sig 7)],
  ctr := 8 } := by
  unfold stUsers regDoris
  rw [stCharles_eq]
  rfl

theorem shStore_eq (c : List Nat) :
    shStore c =
{ datastore := [(UUID.user "alice",
                 Value.sealed
                   (Key.derive (Key.root "password" "alice") "encrypt")
                   (Key.derive (Key.root "password" "alice") "mac")
                   (Entity.user { Username := "alice", RSAkey := 0, Sigkey := 1 })),
                (UUID.user "bob",
                 Value.sealed
                   (Key.derive (Key.root "password" "bob") "encrypt")
                   (Key.derive (Key.root "password" "bob") "mac")
                   (Entity.user { Username := "bob", RSAkey := 2, Sigkey := 3 })),
                (UUID.user "charles",
                 Value.sealed
                   (Key.derive (Key.root "password" "charles") "encrypt")
                   (Key.derive (Key.root "password" "charles") "mac")
                   (Entity.user { Username := "charles", RSAkey := 4, Sigkey := 5 })),
                (UUID.user "doris",
                 Value.sealed
                   (Key.derive (Key.root "password" "doris") "encrypt")
                   (Key.derive (Key.root "password" "doris") "mac")
                   (Entity.user { Username := "doris", RSAkey := 6, Sigkey := 7 })),
                (UUID.fresh 8,
                 Value.sealed
                   (Key.derive (Key.fresh 9) "encrypt")
                   (Key.derive (Key.fresh 9) "mac")
                   (Entity.file { Contents := c, Next := UUID.fresh 10 })),
                (UUID.fresh 11,
                 Value.sealed
                   (Key.derive (Key.fresh 12) "encrypt")
                   (Key.derive (Key.fresh 12) "mac")
                   (Entity.meta
                     { Start := UUID.fresh 8,
                       Last := UUID.fresh 10,
                       FileSourcekey := Key.fresh 9 })),
                (UUID.fresh 14,
                 Value.sealed
                   (Key.derive (Key.fresh 13) "encrypt")
                   (Key.derive (Key.fresh 13) "mac")
                   (Entity.invList [])),
                (UUID.derived (Key.root "password" "alice") "f",
                 Value.sealed
                   (Key.derive (Key.derive (Key.root "password" "alice") "f") "encrypt")
                   (Key.derive (Key.derive (Key.root "password" "alice") "f") "mac")
                   (Entity.access
                     { MetaUUID := UUID.fresh 11,
                       MetaSourcekey := Key.fresh 12,
                       InvitationUUID := UUID.nil,
                       InvitationSourcekey := Key.nil,
                       InvitationList := UUID.fresh 14,
                       ListKey := Key.fresh 13,
                       IsOwner := true }))],
  keystore := [("alice public key", PubKey.pke 0),
               ("alice signature key", PubKey.sig 1),
               ("bob public key", PubKey.pke 2),
               ("bob signature key", PubKey.sig 3),
               ("charles public key", PubKey.pke 4),
               ("charles signature key", PubKey.sig 5),
               ("doris public key", PubKey.pke 6),
               ("doris signature key", PubKey.sig 7)],
  ctr := 15 } := by
  unfold shStore
  rw [aliceU_eq, stUsers_eq]
  rfl

theorem shInvBob_eq (c : List Nat) :
    shInvBob c =
(Except.ok (UUID.fresh 16),
 { datastore := [(UUID.user "alice",
                  Value.sealed
                    (Key.derive (Key.root "password" "alice") "encrypt")
                    (Key.derive (Key.root "password" "alice") "mac")
                    (Entity.user { Username := "alice", RSAkey := 0, Sigkey := 1 })),
                 (UUID.user "bob",
                  Value.sealed
                    (Key.derive (Key.root "password" "bob") "encrypt")
                    (Key.derive (Key.root "password" "bob") "mac")
                    (Entity.user { Username := "bob", RSAkey := 2, Sigkey := 3 })),
                 (UUID.user "charles",
                  Value.sealed
                    (Key.derive (Key.root "password" "charles") "encrypt")
                    (Key.derive (Key.root "password" "charles") "mac")
                    (Entity.user { Username := "charles", RSAkey := 4, Sigkey := 5 })),
                 (UUID.user "doris",
                  Value.sealed
                    (Key.derive (Key.root "password" "doris") "encrypt")
                    (Key.derive (Key.root "password" "doris") "mac")
                    (Entity.user { Username := "doris", RSAkey := 6, Sigkey := 7 })),
                 (UUID.fresh 8,
                  Value.sealed
                    (Key.derive (Key.fresh 9) "encrypt")
                    (Key.derive (Key.fresh 9) "mac")
                    (Entity.file { Contents := c, Next := UUID.fresh 10 })),
                 (UUID.fresh 11,
                  Value.sealed
                    (Key.derive (Key.fresh 12) "encrypt")
                    (Key.derive (Key.fresh 12) "mac")
                    (Entity.meta
                      { Start := UUID.fresh 8,
                        Last := UUID.fresh 10,
                        FileSourcekey := Key.fresh 9 })),
                 (UUID.fresh 14,
                  Value.sealed
                    (Key.derive (Key.fresh 13) "encrypt")
                    (Key.derive (Key.fresh 13) "mac")
                    (Entity.invList
                      [(UUID.derived (Key.root "password" "alice") "alicefbob",
                        Key.fresh 15)])),
                 (UUID.derived (Key.root "password" "alice") "f",
                  Value.sealed
                    (Key.derive (Key.derive (Key.root "password" "alice") "f") "encrypt")
                    (Key.derive (Key.derive (Key.root "password" "alice") "f") "mac")
                    (Entity.access
                      { MetaUUID := UUID.fresh 11,
                        MetaSourcekey := Key.fresh 12,
                        InvitationUUID := UUID.nil,
                        InvitationSourcekey := Key.nil,
                        InvitationList := UUID.fresh 14,
                        ListKey := Key.fresh 13,
                        IsOwner := true })),
                 (UUID.derived (Key.root "password" "alice") "alicefbob",
                  Value.sealed
                    (Key.derive (Key.fresh 15) "encrypt")
                    (Key.derive (Key.fresh 15) "mac")
                    (Entity.invitation
                      { MetaUUID := UUID.fresh 11, MetaSourcekey := Key.fresh 12 })),
                 (UUID.fresh 16,
                  Value.signedPke
                    2
                    1
                    { InvitationUUID := UUID.derived (Key.root "password" "alice") "alicefbob",
                      InvitationSourcekey := Key.fresh 15 })],
   keystore := [("alice public key", PubKey.pke 0),
                ("alice signature key", PubKey.sig 1),
                ("bob public key", PubKey.pke 2),
                ("bob signature key", PubKey.sig 3),
                ("charles public key", PubKey.pke 4),
                ("charles signature key", PubKey.sig 5),
                ("doris public key", PubKey.pke 6),
                ("doris signature key", PubKey.sig 7)],
   ctr := 17 }) := by
  unfold shInvBob
  rw [aliceU_eq, shStore_eq]
  rfl

theorem shAccBob_eq (c : List Nat) :
    shAccBob c =
{ datastore := [(UUID.user "alice",
                 Value.sealed
                   (Key.derive (Key.root "password" "alice") "encrypt")
                   (Key.derive (Key.root "password" "alice") "mac")
                   (Entity.user { Username := "alice", RSAkey := 0, Sigkey := 1 })),
                (UUID.user "bob",
                 Value.sealed
                   (Key.derive (Key.root "password" "bob") "encrypt")
                   (Key.derive (Key.root "password" "bob") "mac")
                   (Entity.user { Username := "bob", RSAkey := 2, Sigkey := 3 })),
                (UUID.user "charles",
                 Value.sealed
                   (Key.derive (Key.root "password" "charles") "encrypt")
                   (Key.derive (Key.root "password" "charles") "mac")
                   (Entity.user { Username := "charles", RSAkey := 4, Sigkey := 5 })),
                (UUID.user "doris",
                 Value.sealed
                   (Key.derive (Key.root "password" "doris") "encrypt")
                   (Key.derive (Key.root "password" "doris") "mac")
                   (Entity.user { Username := "doris", RSAkey := 6, Sigkey := 7 })),
                (UUID.fresh 8,
                 Value.sealed
                   (Key.derive (Key.fresh 9) "encrypt")
                   (Key.derive (Key.fresh 9) "mac")
                   (Entity.file { Contents := c, Next := UUID.fresh 10 })),
                (UUID.fresh 11,
                 Value.sealed
                   (Key.derive (Key.fresh 12) "encrypt")
                   (Key.derive (Key.fresh 12) "mac")
                   (Entity.meta
                     { Start := UUID.fresh 8,
                       Last := UUID.fresh 10,
                       FileSourcekey := Key.fresh 9 })),
                (UUID.fresh 14,
                 Value.sealed
                   (Key.derive (Key.fresh 13) "encrypt")
                   (Key.derive (Key.fresh 13) "mac")
                   (Entity.invList
                     [(UUID.derived (Key.root "password" "alice") "alicefbob",
                       Key.fresh 15)])),
                (UUID.derived (Key.root "password" "alice") "f",
                 Value.sealed
                   (Key.derive (Key.derive (Key.root "password" "alice") "f") "encrypt")
                   (Key.derive (Key.derive (Key.root "password" "alice") "f") "mac")
                   (Entity.access
                     { MetaUUID := UUID.fresh 11,
                       MetaSourcekey := Key.fresh 12,
                       InvitationUUID := UUID.nil,
                       InvitationSourcekey := Key.nil,
                       InvitationList := UUID.fresh 14,
                       ListKey := Key.fresh 13,
                       IsOwner := true })),
                (UUID.derived (Key.root "password" "alice") "alicefbob",
                 Value.sealed
                   (Key.derive (Key.fresh 15) "encrypt")
                   (Key.derive (Key.fresh 15) "mac")
                   (Entity.invitation
                     { MetaUUID := UUID.fresh 11, MetaSourcekey := Key.fresh 12 })),
                (UUID.fresh 16,
                 Value.signedPke
                   2
                   1
                   { InvitationUUID := UUID.derived (Key.root "password" "alice") "alicefbob",
                     InvitationSourcekey := Key.fresh 15 }),
                (UUID.derived (Key.root "password" "bob") "bf",
                 Value.sealed
                   (Key.derive (Key.derive (Key.root "password" "bob") "bf") "encrypt")
                   (Key.derive (Key.derive (Key.root "password" "bob") "bf") "mac")
                   (Entity.access
                     { MetaUUID := UUID.nil,
                       MetaSourcekey := Key.nil,
                       InvitationUUID := UUID.derived (Key.root "password" "alice") "alicefbob",
                       InvitationSourcekey := Key.fresh 15,
                       InvitationList := UUID.nil,
                       ListKey := Key.nil,
                       IsOwner := false }))],
  keystore := [("alice public key", PubKey.pke 0),
               ("alice signature key", PubKey.sig 1),
               ("bob public key", PubKey.pke 2),
               ("bob signature key", PubKey.sig 3),
               ("charles public key", PubKey.pke 4),
               ("charles signature key", PubKey.sig 5),
               ("doris public key", PubKey.pke 6),
               ("doris signature key", PubKey.sig 7)],
  ctr := 17 } := by
  unfold shAccBob shTokBob
  rw [bobU_eq, shInvBob_eq]
  rfl

theorem shInvDoris_eq (c : List Nat) :
    shInvDoris c =
(Except.ok (UUID.fresh 18),
 { datastore := [(UUID.user "alice",
                  Value.sealed
                    (Key.derive (Key.root "password" "alice") "encrypt")
                    (Key.derive (Key.root "password" "alice") "mac")
                    (Entity.user { Username := "alice", RSAkey := 0, Sigkey := 1 })),
                 (UUID.user "bob",
                  Value.sealed
                    (Key.derive (Key.root "password" "bob") "encrypt")
                    (Key.derive (Key.root "password" "bob") "mac")
                    (Entity.user { Username := "bob", RSAkey := 2, Sigkey := 3 })),
                 (UUID.user "charles",
                  Value.sealed
                    (Key.derive (Key.root "password" "charles") "encrypt")
                    (Key.derive (Key.root "password" "charles") "mac")
                    (Entity.user { Username := "charles", RSAkey := 4, Sigkey := 5 })),
                 (UUID.user "doris",
                  Value.sealed
                    (Key.derive (Key.root "password" "doris") "encrypt")
                    (Key.derive (Key.root "password" "doris") "mac")
                    (Entity.user { Username := "doris", RSAkey := 6, Sigkey := 7 })),
                 (UUID.fresh 8,
                  Value.sealed
                    (Key.derive (Key.fresh 9) "encrypt")
                    (Key.derive (Key.fresh 9) "mac")
                    (Entity.file { Contents := c, Next := UUID.fresh 10 })),
                 (UUID.fresh 11,
                  Value.sealed
                    (Key.derive (Key.fresh 12) "encrypt")
                    (Key.derive (Key.fresh 12) "mac")
                    (Entity.meta
                      { Start := UUID.fresh 8,
                        Last := UUID.fresh 10,
                        FileSourcekey := Key.fresh 9 })),
                 (UUID.fresh 14,
                  Value.sealed
                    (Key.derive (Key.fresh 13) "encrypt")
                    (Key.derive (Key.fresh 13) "mac")
                    (Entity.invList
                      [(UUID.derived (Key.root "password" "alice") "alicefbob",
                        Key.fresh 15),
                       (UUID.derived (Key.root "password" "alice") "alicefdoris",
                        Key.fresh 17)])),
                 (UUID.derived (Key.root "password" "alice") "f",
                  Value.sealed
                    (Key.derive (Key.derive (Key.root "password" "alice") "f") "encrypt")
                    (Key.derive (Key.derive (Key.root "password" "alice") "f") "mac")
                    (Entity.access
                      { MetaUUID := UUID.fresh 11,
                        MetaSourcekey := Key.fresh 12,
                        InvitationUUID := UUID.nil,
                        InvitationSourcekey := Key.nil,
                        InvitationList := UUID.fresh 14,
                        ListKey := Key.fresh 13,
                        IsOwner := true })),
                 (UUID.derived (Key.root "password" "alice") "alicefbob",
                  Value.sealed
                    (Key.derive (Key.fresh 15) "encrypt")
                    (Key.derive (Key.fresh 15) "mac")
                    (Entity.invitation
                      { MetaUUID := UUID.fresh 11, MetaSourcekey := Key.fresh 12 })),
                 (UUID.fresh 16,
                  Value.signedPke
                    2
                    1
                    { InvitationUUID := UUID.derived (Key.root "password" "alice") "alicefbob",
                      InvitationSourcekey := Key.fresh 15 }),
                 (UUID.derived (Key.root "password" "bob") "bf",
                  Value.sealed
                    (Key.derive (Key.derive (Key.root "password" "bob") "bf") "encrypt")
                    (Key.derive (Key.derive (Key.root "password" "bob") "bf") "mac")
                    (Entity.access
                      { MetaUUID := UUID.nil,
                        MetaSourcekey := Key.nil,
                        InvitationUUID := UUID.derived (Key.root "password" "alice") "alicefbob",
                        InvitationSourcekey := Key.fresh 15,
                        InvitationList := UUID.nil,
                        ListKey := Key.nil,
                        IsOwner := false })),
                 (UUID.derived (Key.root "password" "alice") "alicefdoris",
                  Value.sealed
                    (Key.derive (Key.fresh 17) "encrypt")
                    (Key.derive (Key.fresh 17) "mac")
                    (Entity.invitation
                      { MetaUUID := UUID.fresh 11, MetaSourcekey := Key.fresh 12 })),
                 (UUID.fresh 18,
                  Value.signedPke
                    6
                    1
                    { InvitationUUID := UUID.derived (Key.root "password" "alice") "alicefdoris",
                      InvitationSourcekey := Key.fresh 17 })],
   keystore := [("alice public key", PubKey.pke 0),
                ("alice signature key", PubKey.sig 1),
                ("bob public key", PubKey.pke 2),
                ("bob signature key", PubKey.sig 3),
                ("charles public key", PubKey.pke 4),
                ("charles signature key", PubKey.sig 5),
                ("doris public key", PubKey.pke 6),
                ("doris signature key", PubKey.sig 7)],
   ctr := 19 }) := by
  unfold shInvDoris
  rw [aliceU_eq, shAccBob_eq]
  rfl

theorem shAccDoris_eq (c : List Nat) :
    shAccDoris c =
{ datastore := [(UUID.user "alice",
                 Value.sealed
                   (Key.derive (Key.root "password" "alice") "encrypt")
                   (Key.derive (Key.root "password" "alice") "mac")
                   (Entity.user { Username := "alice", RSAkey := 0, Sigkey := 1 })),
                (UUID.user "bob",
                 Value.sealed
                   (Key.derive (Key.root "password" "bob") "encrypt")
                   (Key.derive (Key.root "password" "bob") "mac")
                   (Entity.user { Username := "bob", RSAkey := 2, Sigkey := 3 })),
                (UUID.user "charles",
                 Value.sealed
                   (Key.derive (Key.root "password" "charles") "encrypt")
                   (Key.derive (Key.root "password" "charles") "mac")
                   (Entity.user { Username := "charles", RSAkey := 4, Sigkey := 5 })),
                (UUID.user "doris",
                 Value.sealed
                   (Key.derive (Key.root "password" "doris") "encrypt")
                   (Key.derive (Key.root "password" "doris") "mac")
                   (Entity.user { Username := "doris", RSAkey := 6, Sigkey := 7 })),
                (UUID.fresh 8,
                 Value.sealed
                   (Key.derive (Key.fresh 9) "encrypt")
                   (Key.derive (Key.fresh 9) "mac")
                   (Entity.file { Contents := c, Next := UUID.fresh 10 })),
                (UUID.fresh 11,
                 Value.sealed
                   (Key.derive (Key.fresh 12) "encrypt")
                   (Key.derive (Key.fresh 12) "mac")
                   (Entity.meta
                     { Start := UUID.fresh 8,
                       Last := UUID.fresh 10,
                       FileSourcekey := Key.fresh 9 })),
                (UUID.fresh 14,
                 Value.sealed
                   (Key.derive (Key.fresh 13) "encrypt")
                   (Key.derive (Key.fresh 13) "mac")
                   (Entity.invList
                     [(UUID.derived (Key.root "password" "alice") "alicefbob",
                       Key.fresh 15),
                      (UUID.derived (Key.root "password" "alice") "alicefdoris",
                       Key.fresh 17)])),
                (UUID.derived (Key.root "password" "alice") "f",
                 Value.sealed
                   (Key.derive (Key.derive (Key.root "password" "alice") "f") "encrypt")
                   (Key.derive (Key.derive (Key.root "password" "alice") "f") "mac")
                   (Entity.access
                     { MetaUUID := UUID.fresh 11,
                       MetaSourcekey := Key.fresh 12,
                       InvitationUUID := UUID.nil,
                       InvitationSourcekey := Key.nil,
                       InvitationList := UUID.fresh 14,
                       ListKey := Key.fresh 13,
                       IsOwner := true })),
                (UUID.derived (Key.root "password" "alice") "alicefbob",
                 Value.sealed
                   (Key.derive (Key.fresh 15) "encrypt")
                   (Key.derive (Key.fresh 15) "mac")
                   (Entity.invitation
                     { MetaUUID := UUID.fresh 11, MetaSourcekey := Key.fresh 12 })),
                (UUID.fresh 16,
                 Value.signedPke
                   2
                   1
                   { InvitationUUID := UUID.derived (Key.root "password" "alice") "alicefbob",
                     InvitationSourcekey := Key.fresh 15 }),
                (UUID.derived (Key.root "password" "bob") "bf",
                 Value.sealed
                   (Key.derive (Key.derive (Key.root "password" "bob") "bf") "encrypt")
                   (Key.derive (Key.derive (Key.root "password" "bob") "bf") "mac")
                   (Entity.access
                     { MetaUUID := UUID.nil,
                       MetaSourcekey := Key.nil,
                       InvitationUUID := UUID.derived (Key.root "password" "alice") "alicefbob",
                       InvitationSourcekey := Key.fresh 15,
                       InvitationList := UUID.nil,
                       ListKey := Key.nil,
                       IsOwner := false })),
                (UUID.derived (Key.root "password" "alice") "alicefdoris",
                 Value.sealed
                   (Key.derive (Key.fresh 17) "encrypt")
                   (Key.derive (Key.fresh 17) "mac")
                   (Entity.invitation
                     { MetaUUID := UUID.fresh 11, MetaSourcekey := Key.fresh 12 })),
                (UUID.fresh 18,
                 Value.signedPke
                   6
                   1
                   { InvitationUUID := UUID.derived (Key.root "password" "alice") "alicefdoris",
                     InvitationSourcekey := Key.fresh 17 }),
                (UUID.derived (Key.root "password" "doris") "df",
                 Value.sealed
                   (Key.derive (Key.derive (Key.root "password" "doris") "df") "encrypt")
                   (Key.derive (Key.derive (Key.root "password" "doris") "df") "mac")
                   (Entity.access
                     { MetaUUID := UUID.nil,
                       MetaSourcekey := Key.nil,
                       InvitationUUID := UUID.derived (Key.root "password" "alice") "alicefdoris",
                       InvitationSourcekey := Key.fresh 17,
                       InvitationList := UUID.nil,
                       ListKey := Key.nil,
                       IsOwner := false }))],
  keystore := [("alice public key", PubKey.pke 0),
               ("alice signature key", PubKey.sig 1),
               ("bob public key", PubKey.pke 2),
               ("bob signature key", PubKey.sig 3),
               ("charles public key", PubKey.pke 4),
               ("charles signature key", PubKey.sig 5),
               ("doris public key", PubKey.pke 6),
               ("doris signature key", PubKey.sig 7)],
  ctr := 19 } := by
  unfold shAccDoris shTokDoris
  rw [dorisU_eq, shInvDoris_eq]
  rfl

theorem shInvCharles_eq (c : List Nat) :
    shInvCharles c =
(Except.ok (UUID.fresh 20),
 { datastore := [(UUID.user "alice",
                  Value.sealed
                    (Key.derive (Key.root "password" "alice") "encrypt")
                    (Key.derive (Key.root "password" "alice") "mac")
                    (Entity.user { Username := "alice", RSAkey := 0, Sigkey := 1 })),
                 (UUID.user "bob",
                  Value.sealed
                    (Key.derive (Key.root "password" "bob") "encrypt")
                    (Key.derive (Key.root "password" "bob") "mac")
                    (Entity.user { Username := "bob", RSAkey := 2, Sigkey := 3 })),
                 (UUID.user "charles",
                  Value.sealed
                    (Key.derive (Key.root "password" "charles") "encrypt")
                    (Key.derive (Key.root "password" "charles") "mac")
                    (Entity.user { Username := "charles", RSAkey := 4, Sigkey := 5 })),
                 (UUID.user "doris",
                  Value.sealed
                    (Key.derive (Key.root "password" "doris") "encrypt")
                    (Key.derive (Key.root "password" "doris") "mac")
                    (Entity.user { Username := "doris", RSAkey := 6, Sigkey := 7 })),
                 (UUID.fresh 8,
                  Value.sealed
                    (Key.derive (Key.fresh 9) "encrypt")
                    (Key.derive (Key.fresh 9) "mac")
                    (Entity.file { Contents := c, Next := UUID.fresh 10 })),
                 (UUID.fresh 11,
                  Value.sealed
                    (Key.derive (Key.fresh 12) "encrypt")
                    (Key.derive (Key.fresh 12) "mac")
                    (Entity.meta
                      { Start := UUID.fresh 8,
                        Last := UUID.fresh 10,
                        FileSourcekey := Key.fresh 9 })),
                 (UUID.fresh 14,
                  Value.sealed
                    (Key.derive (Key.fresh 13) "encrypt")
                    (Key.derive (Key.fresh 13) "mac")
                    (Entity.invList
                      [(UUID.derived (Key.root "password" "alice") "alicefbob",
                        Key.fresh 15),
                       (UUID.derived (Key.root "password" "alice") "alicefdoris",
                        Key.fresh 17)])),
                 (UUID.derived (Key.root "password" "alice") "f",
                  Value.sealed
                    (Key.derive (Key.derive (Key.root "password" "alice") "f") "encrypt")
                    (Key.derive (Key.derive (Key.root "password" "alice") "f") "mac")
                    (Entity.access
                      { MetaUUID := UUID.fresh 11,
                        MetaSourcekey := Key.fresh 12,
                        InvitationUUID := UUID.nil,
                        InvitationSourcekey := Key.nil,
                        InvitationList := UUID.fresh 14,
                        ListKey := Key.fresh 13,
                        IsOwner := true })),
                 (UUID.derived (Key.root "password" "alice") "alicefbob",
                  Value.sealed
                    (Key.derive (Key.fresh 15) "encrypt")
                    (Key.derive (Key.fresh 15) "mac")
                    (Entity.invitation
                      { MetaUUID := UUID.fresh 11, MetaSourcekey := Key.fresh 12 })),
                 (UUID.fresh 16,
                  Value.signedPke
                    2
                    1
                    { InvitationUUID := UUID.derived (Key.root "password" "alice") "alicefbob",
                      InvitationSourcekey := Key.fresh 15 }),
                 (UUID.derived (Key.root "password" "bob") "bf",
                  Value.sealed
                    (Key.derive (Key.derive (Key.root "password" "bob") "bf") "encrypt")
                    (Key.derive (Key.derive (Key.root "password" "bob") "bf") "mac")
                    (Entity.access
                      { MetaUUID := UUID.nil,
                        MetaSourcekey := Key.nil,
                        InvitationUUID := UUID.derived (Key.root "password" "alice") "alicefbob",
                        InvitationSourcekey := Key.fresh 15,
                        InvitationList := UUID.nil,
                        ListKey := Key.nil,
                        IsOwner := false })),
                 (UUID.derived (Key.root "password" "alice") "alicefdoris",
                  Value.sealed
                    (Key.derive (Key.fresh 17) "encrypt")
                    (Key.derive (Key.fresh 17) "mac")
                    (Entity.invitation
                      { MetaUUID := UUID.fresh 11, MetaSourcekey := Key.fresh 12 })),
                 (UUID.fresh 18,
                  Value.signedPke
                    6
                    1
                    { InvitationUUID := UUID.derived (Key.root "password" "alice") "alicefdoris",
                      InvitationSourcekey := Key.fresh 17 }),
                 (UUID.derived (Key.root "password" "doris") "df",
                  Value.sealed
                    (Key.derive (Key.derive (Key.root "password" "doris") "df") "encrypt")
                    (Key.derive (Key.derive (Key.root "password" "doris") "df") "mac")
                    (Entity.access
                      { MetaUUID := UUID.nil,
                        MetaSourcekey := Key.nil,
                        InvitationUUID := UUID.derived (Key.root "password" "alice") "alicefdoris",
                        InvitationSourcekey := Key.fresh 17,
                        InvitationList := UUID.nil,
                        ListKey := Key.nil,
                        IsOwner := false })),
                 (UUID.derived (Key.root "password" "bob") "bobbfcharles",
                  Value.sealed
                    (Key.derive (Key.fresh 19) "encrypt")
                    (Key.derive (Key.fresh 19) "mac")
                    (Entity.invitation
                      { MetaUUID := UUID.fresh 11, MetaSourcekey := Key.fresh 12 })),
                 (UUID.fresh 20,
                  Value.signedPke
                    4
                    3
                    { InvitationUUID := UUID.derived (Key.root "password" "bob") "bobbfcharles",
                      InvitationSourcekey := Key.fresh 19 })],
   keystore := [("alice public key", PubKey.pke 0),
                ("alice signature key", PubKey.sig 1),
                ("bob public key", PubKey.pke 2),
                ("bob signature key", PubKey.sig 3),
                ("charles public key", PubKey.pke 4),
                ("charles signature key", PubKey.sig 5),
                ("doris public key", PubKey.pke 6),
                ("doris signature key", PubKey.sig 7)],
   ctr := 21 }) := by
  unfold shInvCharles
  rw [bobU_eq, shAccDoris_eq]
  rfl

theorem shAccCharles_eq (c : List Nat) :
    shAccCharles c =
{ datastore := [(UUID.user "alice",
                 Value.sealed
                   (Key.derive (Key.root "password" "alice") "encrypt")
                   (Key.derive (Key.root "password" "alice") "mac")
                   (Entity.user { Username := "alice", RSAkey := 0, Sigkey := 1 })),
                (UUID.user "bob",
                 Value.sealed
                   (Key.derive (Key.root "password" "bob") "encrypt")
                   (Key.derive (Key.root "password" "bob") "mac")
                   (Entity.user { Username := "bob", RSAkey := 2, Sigkey := 3 })),
                (UUID.user "charles",
                 Value.sealed
                   (Key.derive (Key.root "password" "charles") "encrypt")
                   (Key.derive (Key.root "password" "charles") "mac")
                   (Entity.user { Username := "charles", RSAkey := 4, Sigkey := 5 })),
                (UUID.user "doris",
                 Value.sealed
                   (Key.derive (Key.root "password" "doris") "encrypt")
                   (Key.derive (Key.root "password" "doris") "mac")
                   (Entity.user { Username := "doris", RSAkey := 6, Sigkey := 7 })),
                (UUID.fresh 8,
                 Value.sealed
                   (Key.derive (Key.fresh 9) "encrypt")
                   (Key.derive (Key.fresh 9) "mac")
                   (Entity.file { Contents := c, Next := UUID.fresh 10 })),
                (UUID.fresh 11,
                 Value.sealed
                   (Key.derive (Key.fresh 12) "encrypt")
                   (Key.derive (Key.fresh 12) "mac")
                   (Entity.meta
                     { Start := UUID.fresh 8,
                       Last := UUID.fresh 10,
                       FileSourcekey := Key.fresh 9 })),
                (UUID.fresh 14,
                 Value.sealed
                   (Key.derive (Key.fresh 13) "encrypt")
                   (Key.derive (Key.fresh 13) "mac")
                   (Entity.invList
                     [(UUID.derived (Key.root "password" "alice") "alicefbob",
                       Key.fresh 15),
                      (UUID.derived (Key.root "password" "alice") "alicefdoris",
                       Key.fresh 17)])),
                (UUID.derived (Key.root "password" "alice") "f",
                 Value.sealed
                   (Key.derive (Key.derive (Key.root "password" "alice") "f") "encrypt")
                   (Key.derive (Key.derive (Key.root "password" "alice") "f") "mac")
                   (Entity.access
                     { MetaUUID := UUID.fresh 11,
                       MetaSourcekey := Key.fresh 12,
                       InvitationUUID := UUID.nil,
                       InvitationSourcekey := Key.nil,
                       InvitationList := UUID.fresh 14,
                       ListKey := Key.fresh 13,
                       IsOwner := true })),
                (UUID.derived (Key.root "password" "alice") "alicefbob",
                 Value.sealed
                   (Key.derive (Key.fresh 15) "encrypt")
                   (Key.derive (Key.fresh 15) "mac")
                   (Entity.invitation
                     { MetaUUID := UUID.fresh 11, MetaSourcekey := Key.fresh 12 })),
                (UUID.fresh 16,
                 Value.signedPke
                   2
                   1
                   { InvitationUUID := UUID.derived (Key.root "password" "alice") "alicefbob",
                     InvitationSourcekey := Key.fresh 15 }),
                (UUID.derived (Key.root "password" "bob") "bf",
                 Value.sealed
                   (Key.derive (Key.derive (Key.root "password" "bob") "bf") "encrypt")
                   (Key.derive (Key.derive (Key.root "password" "bob") "bf") "mac")
                   (Entity.access
                     { MetaUUID := UUID.nil,
                       MetaSourcekey := Key.nil,
                       InvitationUUID := UUID.derived (Key.root "password" "alice") "alicefbob",
                       InvitationSourcekey := Key.fresh 15,
                       InvitationList := UUID.nil,
                       ListKey := Key.nil,
                       IsOwner := false })),
                (UUID.derived (Key.root "password" "alice") "alicefdoris",
                 Value.sealed
                   (Key.derive (Key.fresh 17) "encrypt")
                   (Key.derive (Key.fresh 17) "mac")
                   (Entity.invitation
                     { MetaUUID := UUID.fresh 11, MetaSourcekey := Key.fresh 12 })),
                (UUID.fresh 18,
                 Value.signedPke
                   6
                   1
                   { InvitationUUID := UUID.derived (Key.root "password" "alice") "alicefdoris",
                     InvitationSourcekey := Key.fresh 17 }),
                (UUID.derived (Key.root "password" "doris") "df",
                 Value.sealed
                   (Key.derive (Key.derive (Key.root "password" "doris") "df") "encrypt")
                   (Key.derive (Key.derive (Key.root "password" "doris") "df") "mac")
                   (Entity.access
                     { MetaUUID := UUID.nil,
                       MetaSourcekey := Key.nil,
                       InvitationUUID := UUID.derived (Key.root "password" "alice") "alicefdoris",
                       InvitationSourcekey := Key.fresh 17,
                       InvitationList := UUID.nil,
                       ListKey := Key.nil,
                       IsOwner := false })),
                (UUID.derived (Key.root "password" "bob") "bobbfcharles",
                 Value.sealed
                   (Key.derive (Key.fresh 19) "encrypt")
                   (Key.derive (Key.fresh 19) "mac")
                   (Entity.invitation
                     { MetaUUID := UUID.fresh 11, MetaSourcekey := Key.fresh 12 })),
                (UUID.fresh 20,
                 Value.signedPke
                   4
                   3
                   { InvitationUUID := UUID.derived (Key.root "password" "bob") "bobbfcharles",
                     InvitationSourcekey := Key.fresh 19 }),
                (UUID.derived (Key.root "password" "charles") "cf",
                 Value.sealed
                   (Key.derive
                     (Key.derive (Key.root "password" "charles") "cf")
                     "encrypt")
                   (Key.derive (Key.derive (Key.root "password" "charles") "cf") "mac")
                   (Entity.access
                     { MetaUUID := UUID.nil,
                       MetaSourcekey := Key.nil,
                       InvitationUUID := UUID.derived (Key.root "password" "bob") "bobbfcharles",
                       InvitationSourcekey := Key.fresh 19,
                       InvitationList := UUID.nil,
                       ListKey := Key.nil,
                       IsOwner := false }))],
  keystore := [("alice public key", PubKey.pke 0),
               ("alice signature key", PubKey.sig 1),
               ("bob public key", PubKey.pke 2),
               ("bob signature key", PubKey.sig 3),
               ("charles public key", PubKey.pke 4),
               ("charles signature key", PubKey.sig 5),
               ("doris public key", PubKey.pke 6),
               ("doris signature key", PubKey.sig 7)],
  ctr := 21 } := by
  unfold shAccCharles shTokCharles
  rw [charlesU_eq, shInvCharles_eq]
  rfl

theorem shRevoke_eq (c : List Nat) :
    shRevoke c =
(Except.ok (),
 { datastore := [(UUID.user "alice",
                  Value.sealed
                    (Key.derive (Key.root "password" "alice") "encrypt")
                    (Key.derive (Key.root "password" "alice") "mac")
                    (Entity.user { Username := "alice", RSAkey := 0, Sigkey := 1 })),
                 (UUID.user "bob",
                  Value.sealed
                    (Key.derive (Key.root "password" "bob") "encrypt")
                    (Key.derive (Key.root "password" "bob") "mac")
                    (Entity.user { Username := "bob", RSAkey := 2, Sigkey := 3 })),
                 (UUID.user "charles",
                  Value.sealed
                    (Key.derive (Key.root "password" "charles") "encrypt")
                    (Key.derive (Key.root "password" "charles") "mac")
                    (Entity.user { Username := "charles", RSAkey := 4, Sigkey := 5 })),
                 (UUID.user "doris",
                  Value.sealed
                    (Key.derive (Key.root "password" "doris") "encrypt")
                    (Key.derive (Key.root "password" "doris") "mac")
                    (Entity.user { Username := "doris", RSAkey := 6, Sigkey := 7 })),
                 (UUID.fresh 8,
                  Value.sealed
                    (Key.derive (Key.fresh 9) "encrypt")
                    (Key.derive (Key.fresh 9) "mac")
                    (Entity.file { Contents := c, Next := UUID.fresh 10 })),
                 (UUID.fresh 11,
                  Value.sealed
                    (Key.derive (Key.fresh 24) "encrypt")
                    (Key.derive (Key.fresh 24) "mac")
                    (Entity.meta
                      { Start := UUID.fresh 21,
                        Last := UUID.fresh 23,
                        FileSourcekey := Key.fresh 22 })),
                 (UUID.fresh 14,
                  Value.sealed
                    (Key.derive (Key.fresh 13) "encrypt")
                    (Key.derive (Key.fresh 13) "mac")
                    (Entity.invList
                      [(UUID.derived (Key.root "password" "alice") "alicefdoris",
                        Key.fresh 17)])),
                 (UUID.derived (Key.root "password" "alice") "f",
                  Value.sealed
                    (Key.derive (Key.derive (Key.root "password" "alice") "f") "encrypt")
                    (Key.derive (Key.derive (Key.root "password" "alice") "f") "mac")
                    (Entity.access
                      { MetaUUID := UUID.fresh 11,
                        MetaSourcekey := Key.fresh 24,
                        InvitationUUID := UUID.nil,
                        InvitationSourcekey := Key.nil,
                        InvitationList := UUID.fresh 14,
                        ListKey := Key.fresh 13,
                        IsOwner := true })),
                 (UUID.derived (Key.root "password" "alice") "alicefbob",
                  Value.sealed
                    (Key.derive (Key.fresh 15) "encrypt")
                    (Key.derive (Key.fresh 15) "mac")
                    (Entity.invitation
                      { MetaUUID := UUID.fresh 11, MetaSourcekey := Key.fresh 12 })),
                 (UUID.fresh 16,
                  Value.signedPke
                    2
                    1
                    { InvitationUUID := UUID.derived (Key.root "password" "alice") "alicefbob",
                      InvitationSourcekey := Key.fresh 15 }),
                 (UUID.derived (Key.root "password" "bob") "bf",
                  Value.sealed
                    (Key.derive (Key.derive (Key.root "password" "bob") "bf") "encrypt")
                    (Key.derive (Key.derive (Key.root "password" "bob") "bf") "mac")
                    (Entity.access
                      { MetaUUID := UUID.nil,
                        MetaSourcekey := Key.nil,
                        InvitationUUID := UUID.derived (Key.root "password" "alice") "alicefbob",
                        InvitationSourcekey := Key.fresh 15,
                        InvitationList := UUID.nil,
                        ListKey := Key.nil,
                        IsOwner := false })),
                 (UUID.derived (Key.root "password" "alice") "alicefdoris",
                  Value.sealed
                    (Key.derive (Key.fresh 17) "encrypt")
                    (Key.derive (Key.fresh 17) "mac")
                    (Entity.invitation
                      { MetaUUID := UUID.fresh 11, MetaSourcekey := Key.fresh 24 })),
                 (UUID.fresh 18,
                  Value.signedPke
                    6
                    1
                    { InvitationUUID := UUID.derived (Key.root "password" "alice") "alicefdoris",
                      InvitationSourcekey := Key.fresh 17 }),
                 (UUID.derived (Key.root "password" "doris") "df",
                  Value.sealed
                    (Key.derive (Key.derive (Key.root "password" "doris") "df") "encrypt")
                    (Key.derive (Key.derive (Key.root "password" "doris") "df") "mac")
                    (Entity.access
                      { MetaUUID := UUID.nil,
                        MetaSourcekey := Key.nil,
                        InvitationUUID := UUID.derived (Key.root "password" "alice") "alicefdoris",
                        InvitationSourcekey := Key.fresh 17,
                        InvitationList := UUID.nil,
                        ListKey := Key.nil,
                        IsOwner := false })),
                 (UUID.derived (Key.root "password" "bob") "bobbfcharles",
                  Value.sealed
                    (Key.derive (Key.fresh 19) "encrypt")
                    (Key.derive (Key.fresh 19) "mac")
                    (Entity.invitation
                      { MetaUUID := UUID.fresh 11, MetaSourcekey := Key.fresh 12 })),
                 (UUID.fresh 20,
                  Value.signedPke
                    4
                    3
                    { InvitationUUID := UUID.derived (Key.root "password" "bob") "bobbfcharles",
                      InvitationSourcekey := Key.fresh 19 }),
                 (UUID.derived (Key.root "password" "charles") "cf",
                  Value.sealed
                    (Key.derive
                      (Key.derive (Key.root "password" "charles") "cf")
                      "encrypt")
                    (Key.derive (Key.derive (Key.root "password" "charles") "cf") "mac")
                    (Entity.access
                      { MetaUUID := UUID.nil,
                        MetaSourcekey := Key.nil,
                        InvitationUUID := UUID.derived (Key.root "password" "bob") "bobbfcharles",
                        InvitationSourcekey := Key.fresh 19,
                        InvitationList := UUID.nil,
                        ListKey := Key.nil,
                        IsOwner := false })),
                 (UUID.fresh 21,
                  Value.sealed
                    (Key.derive (Key.fresh 22) "encrypt")
                    (Key.derive (Key.fresh 22) "mac")
                    (Entity.file { Contents := c, Next := UUID.fresh 23 }))],
   keystore := [("alice public key", PubKey.pke 0),
                ("alice signature key", PubKey.sig 1),
                ("bob public key", PubKey.pke 2),
                ("bob signature key", PubKey.sig 3),
                ("charles public key", PubKey.pke 4),
                ("charles signature key", PubKey.sig 5),
                ("doris public key", PubKey.pke 6),
                ("doris signature key", PubKey.sig 7)],
   ctr := 25 }) := by
  unfold shRevoke
  rw [aliceU_eq, shAccCharles_eq]
  rfl

theorem c2Store_eq (c1 : List Nat) :
    c2Store c1 =
{ datastore := [(UUID.user "alice",
                 Value.sealed
                   (Key.derive (Key.root "password" "alice") "encrypt")
                   (Key.derive (Key.root "password" "alice") "mac")
                   (Entity.user { Username := "alice", RSAkey := 0, Sigkey := 1 })),
                (UUID.user "bob",
                 Value.sealed
                   (Key.derive (Key.root "password" "bob") "encrypt")
                   (Key.derive (Key.root "password" "bob") "mac")
                   (Entity.user { Username := "bob", RSAkey := 2, Sigkey := 3 })),
                (UUID.fresh 4,
                 Value.sealed
                   (Key.derive (Key.fresh 5) "encrypt")
                   (Key.derive (Key.fresh 5) "mac")
                   (Entity.file { Contents := c1, Next := UUID.fresh 6 })),
                (UUID.fresh 7,
                 Value.sealed
                   (Key.derive (Key.fresh 8) "encrypt")
                   (Key.derive (Key.fresh 8) "mac")
                   (Entity.meta
                     { Start := UUID.fresh 4,
                       Last := UUID.fresh 6,
                       FileSourcekey := Key.fresh 5 })),
                (UUID.fresh 10,
                 Value.sealed
                   (Key.derive (Key.fresh 9) "encrypt")
                   (Key.derive (Key.fresh 9) "mac")
                   (Entity.invList [])),
                (UUID.derived (Key.root "password" "alice") "d",
                 Value.sealed
                   (Key.derive (Key.derive (Key.root "password" "alice") "d") "encrypt")
                   (Key.derive (Key.derive (Key.root "password" "alice") "d") "mac")
                   (Entity.access
                     { MetaUUID := UUID.fresh 7,
                       MetaSourcekey := Key.fresh 8,
                       InvitationUUID := UUID.nil,
                       InvitationSourcekey := Key.nil,
                       InvitationList := UUID.fresh 10,
                       ListKey := Key.fresh 9,
                       IsOwner := true }))],
  keystore := [("alice public key", PubKey.pke 0),
               ("alice signature key", PubKey.sig 1),
               ("bob public key", PubKey.pke 2),
               ("bob signature key", PubKey.sig 3)],
  ctr := 11 } := by
  unfold c2Store
  rw [aliceU_eq, stBob_eq]
  rfl

theorem c2Inv_eq (c1 : List Nat) :
    c2Inv c1 =
(Except.ok (UUID.fresh 12),
 { datastore := [(UUID.user "alice",
                  Value.sealed
                    (Key.derive (Key.root "password" "alice") "encrypt")
                    (Key.derive (Key.root "password" "alice") "mac")
                    (Entity.user { Username := "alice", RSAkey := 0, Sigkey := 1 })),
                 (UUID.user "bob",
                  Value.sealed
                    (Key.derive (Key.root "password" "bob") "encrypt")
                    (Key.derive (Key.root "password" "bob") "mac")
                    (Entity.user { Username := "bob", RSAkey := 2, Sigkey := 3 })),
                 (UUID.fresh 4,
                  Value.sealed
                    (Key.derive (Key.fresh 5) "encrypt")
                    (Key.derive (Key.fresh 5) "mac")
                    (Entity.file { Contents := c1, Next := UUID.fresh 6 })),
                 (UUID.fresh 7,
                  Value.sealed
                    (Key.derive (Key.fresh 8) "encrypt")
                    (Key.derive (Key.fresh 8) "mac")
                    (Entity.meta
                      { Start := UUID.fresh 4,
                        Last := UUID.fresh 6,
                        FileSourcekey := Key.fresh 5 })),
                 (UUID.fresh 10,
                  Value.sealed
                    (Key.derive (Key.fresh 9) "encrypt")
                    (Key.derive (Key.fresh 9) "mac")
                    (Entity.invList
                      [(UUID.derived (Key.root "password" "alice") "alicedbob",
                        Key.fresh 11)])),
                 (UUID.derived (Key.root "password" "alice") "d",
                  Value.sealed
                    (Key.derive (Key.derive (Key.root "password" "alice") "d") "encrypt")
                    (Key.derive (Key.derive (Key.root "password" "alice") "d") "mac")
                    (Entity.access
                      { MetaUUID := UUID.fresh 7,
                        MetaSourcekey := Key.fresh 8,
                        InvitationUUID := UUID.nil,
                        InvitationSourcekey := Key.nil,
                        InvitationList := UUID.fresh 10,
                        ListKey := Key.fresh 9,
                        IsOwner := true })),
                 (UUID.derived (Key.root "password" "alice") "alicedbob",
                  Value.sealed
                    (Key.derive (Key.fresh 11) "encrypt")
                    (Key.derive (Key.fresh 11) "mac")
                    (Entity.invitation
                      { MetaUUID := UUID.fresh 7, MetaSourcekey := Key.fresh 8 })),
                 (UUID.fresh 12,
                  Value.signedPke
                    2
                    1
                    { InvitationUUID := UUID.derived (Key.root "password" "alice") "alicedbob",
                      InvitationSourcekey := Key.fresh 11 })],
   keystore := [("alice public key", PubKey.pke 0),
                ("alice signature key", PubKey.sig 1),
                ("bob public key", PubKey.pke 2),
                ("bob signature key", PubKey.sig 3)],
   ctr := 13 }) := by
  unfold c2Inv
  rw [aliceU_eq, c2Store_eq]
  rfl

theorem c2Acc_eq (c1 : List Nat) :
    c2Acc c1 =
{ datastore := [(UUID.user "alice",
                 Value.sealed
                   (Key.derive (Key.root "password" "alice") "encrypt")
                   (Key.derive (Key.root "password" "alice") "mac")
                   (Entity.user { Username := "alice", RSAkey := 0, Sigkey := 1 })),
                (UUID.user "bob",
                 Value.sealed
                   (Key.derive (Key.root "password" "bob") "encrypt")
                   (Key.derive (Key.root "password" "bob") "mac")
                   (Entity.user { Username := "bob", RSAkey := 2, Sigkey := 3 })),
                (UUID.fresh 4,
                 Value.sealed
                   (Key.derive (Key.fresh 5) "encrypt")
                   (Key.derive (Key.fresh 5) "mac")
                   (Entity.file { Contents := c1, Next := UUID.fresh 6 })),
                (UUID.fresh 7,
                 Value.sealed
                   (Key.derive (Key.fresh 8) "encrypt")
                   (Key.derive (Key.fresh 8) "mac")
                   (Entity.meta
                     { Start := UUID.fresh 4,
                       Last := UUID.fresh 6,
                       FileSourcekey := Key.fresh 5 })),
                (UUID.fresh 10,
                 Value.sealed
                   (Key.derive (Key.fresh 9) "encrypt")
                   (Key.derive (Key.fresh 9) "mac")
                   (Entity.invList
                     [(UUID.derived (Key.root "password" "alice") "alicedbob",
                       Key.fresh 11)])),
                (UUID.derived (Key.root "password" "alice") "d",
                 Value.sealed
                   (Key.derive (Key.derive (Key.root "password" "alice") "d") "encrypt")
                   (Key.derive (Key.derive (Key.root "password" "alice") "d") "mac")
                   (Entity.access
                     { MetaUUID := UUID.fresh 7,
                       MetaSourcekey := Key.fresh 8,
                       InvitationUUID := UUID.nil,
                       InvitationSourcekey := Key.nil,
                       InvitationList := UUID.fresh 10,
                       ListKey := Key.fresh 9,
                       IsOwner := true })),
                (UUID.derived (Key.root "password" "alice") "alicedbob",
                 Value.sealed
                   (Key.derive (Key.fresh 11) "encrypt")
                   (Key.derive (Key.fresh 11) "mac")
                   (Entity.invitation
                     { MetaUUID := UUID.fresh 7, MetaSourcekey := Key.fresh 8 })),
                (UUID.fresh 12,
                 Value.signedPke
                   2
                   1
                   { InvitationUUID := UUID.derived (Key.root "password" "alice") "alicedbob",
                     InvitationSourcekey := Key.fresh 11 }),
                (UUID.derived (Key.root "password" "bob") "bd",
                 Value.sealed
                   (Key.derive (Key.derive (Key.root "password" "bob") "bd") "encrypt")
                   (Key.derive (Key.derive (Key.root "password" "bob") "bd") "mac")
                   (Entity.access
                     { MetaUUID := UUID.nil,
                       MetaSourcekey := Key.nil,
                       InvitationUUID := UUID.derived (Key.root "password" "alice") "alicedbob",
                       InvitationSourcekey := Key.fresh 11,
                       InvitationList := UUID.nil,
                       ListKey := Key.nil,
                       IsOwner := false }))],
  keystore := [("alice public key", PubKey.pke 0),
               ("alice signature key", PubKey.sig 1),
               ("bob public key", PubKey.pke 2),
               ("bob signature key", PubKey.sig 3)],
  ctr := 13 } := by
  unfold c2Acc
  rw [bobU_eq, c2Inv_eq]
  rfl

theorem c2App1_eq (c1 c2 : List Nat) :
    c2App1 c1 c2 =
(Except.ok (),
 { datastore := [(UUID.user "alice",
                  Value.sealed
                    (Key.derive (Key.root "password" "alice") "encrypt")
                    (Key.derive (Key.root "password" "alice") "mac")
                    (Entity.user { Username := "alice", RSAkey := 0, Sigkey := 1 })),
                 (UUID.user "bob",
                  Value.sealed
                    (Key.derive (Key.root "password" "bob") "encrypt")
                    (Key.derive (Key.root "password" "bob") "mac")
                    (Entity.user { Username := "bob", RSAkey := 2, Sigkey := 3 })),
                 (UUID.fresh 4,
                  Value.sealed
                    (Key.derive (Key.fresh 5) "encrypt")
                    (Key.derive (Key.fresh 5) "mac")
                    (Entity.file { Contents := c1, Next := UUID.fresh 6 })),
                 (UUID.fresh 7,
                  Value.sealed
                    (Key.derive (Key.fresh 8) "encrypt")
                    (Key.derive (Key.fresh 8) "mac")
                    (Entity.meta
                      { Start := UUID.fresh 4,
                        Last := UUID.fresh 13,
                        FileSourcekey := Key.fresh 5 })),
                 (UUID.fresh 10,
                  Value.sealed
                    (Key.derive (Key.fresh 9) "encrypt")
                    (Key.derive (Key.fresh 9) "mac")
                    (Entity.invList
                      [(UUID.derived (Key.root "password" "alice") "alicedbob",
                        Key.fresh 11)])),
                 (UUID.derived (Key.root "password" "alice") "d",
                  Value.sealed
                    (Key.derive (Key.derive (Key.root "password" "alice") "d") "encrypt")
                    (Key.derive (Key.derive (Key.root "password" "alice") "d") "mac")
                    (Entity.access
                      { MetaUUID := UUID.fresh 7,
                        MetaSourcekey := Key.fresh 8,
                        InvitationUUID := UUID.nil,
                        InvitationSourcekey := Key.nil,
                        InvitationList := UUID.fresh 10,
                        ListKey := Key.fresh 9,
                        IsOwner := true })),
                 (UUID.derived (Key.root "password" "alice") "alicedbob",
                  Value.sealed
                    (Key.derive (Key.fresh 11) "encrypt")
                    (Key.derive (Key.fresh 11) "mac")
                    (Entity.invitation
                      { MetaUUID := UUID.fresh 7, MetaSourcekey := Key.fresh 8 })),
                 (UUID.fresh 12,
                  Value.signedPke
                    2
                    1
                    { InvitationUUID := UUID.derived (Key.root "password" "alice") "alicedbob",
                      InvitationSourcekey := Key.fresh 11 }),
                 (UUID.derived (Key.root "password" "bob") "bd",
                  Value.sealed
                    (Key.derive (Key.derive (Key.root "password" "bob") "bd") "encrypt")
                    (Key.derive (Key.derive (Key.root "password" "bob") "bd") "mac")
                    (Entity.access
                      { MetaUUID := UUID.nil,
                        MetaSourcekey := Key.nil,
                        InvitationUUID := UUID.derived (Key.root "password" "alice") "alicedbob",
                        InvitationSourcekey := Key.fresh 11,
                        InvitationList := UUID.nil,
                        ListKey := Key.nil,
                        IsOwner := false })),
                 (UUID.fresh 6,
                  Value.sealed
                    (Key.derive (Key.fresh 5) "encrypt")
                    (Key.derive (Key.fresh 5) "mac")
                    (Entity.file { Contents := c2, Next := UUID.fresh 13 }))],
   keystore := [("alice public key", PubKey.pke 0),
                ("alice signature key", PubKey.sig 1),
                ("bob public key", PubKey.pke 2),
                ("bob signature key", PubKey.sig 3)],
   ctr := 14 }) := by
  unfold c2App1
  rw [aliceU_eq, c2Acc_eq]
  rfl

theorem c2App2_eq (c1 c2 c3 : List Nat) :
    c2App2 c1 c2 c3 =
(Except.ok (),
 { datastore := [(UUID.user "alice",
                  Value.sealed
                    (Key.derive (Key.root "password" "alice") "encrypt")
                    (Key.derive (Key.root "password" "alice") "mac")
                    (Entity.user { Username := "alice", RSAkey := 0, Sigkey := 1 })),
                 (UUID.user "bob",
                  Value.sealed
                    (Key.derive (Key.root "password" "bob") "encrypt")
                    (Key.derive (Key.root "password" "bob") "mac")
                    (Entity.user { Username := "bob", RSAkey := 2, Sigkey := 3 })),
                 (UUID.fresh 4,
                  Value.sealed
                    (Key.derive (Key.fresh 5) "encrypt")
                    (Key.derive (Key.fresh 5) "mac")
                    (Entity.file { Contents := c1, Next := UUID.fresh 6 })),
                 (UUID.fresh 7,
                  Value.sealed
                    (Key.derive (Key.fresh 8) "encrypt")
                    (Key.derive (Key.fresh 8) "mac")
                    (Entity.meta
                      { Start := UUID.fresh 4,
                        Last := UUID.fresh 14,
                        FileSourcekey := Key.fresh 5 })),
                 (UUID.fresh 10,
                  Value.sealed
                    (Key.derive (Key.fresh 9) "encrypt")
                    (Key.derive (Key.fresh 9) "mac")
                    (Entity.invList
                      [(UUID.derived (Key.root "password" "alice") "alicedbob",
                        Key.fresh 11)])),
                 (UUID.derived (Key.root "password" "alice") "d",
                  Value.sealed
                    (Key.derive (Key.derive (Key.root "password" "alice") "d") "encrypt")
                    (Key.derive (Key.derive (Key.root "password" "alice") "d") "mac")
                    (Entity.access
                      { MetaUUID := UUID.fresh 7,
                        MetaSourcekey := Key.fresh 8,
                        InvitationUUID := UUID.nil,
                        InvitationSourcekey := Key.nil,
                        InvitationList := UUID.fresh 10,
                        ListKey := Key.fresh 9,
                        IsOwner := true })),
                 (UUID.derived (Key.root "password" "alice") "alicedbob",
                  Value.sealed
                    (Key.derive (Key.fresh 11) "encrypt")
                    (Key.derive (Key.fresh 11) "mac")
                    (Entity.invitation
                      { MetaUUID := UUID.fresh 7, MetaSourcekey := Key.fresh 8 })),
                 (UUID.fresh 12,
                  Value.signedPke
                    2
                    1
                    { InvitationUUID := UUID.derived (Key.root "password" "alice") "alicedbob",
                      InvitationSourcekey := Key.fresh 11 }),
                 (UUID.derived (Key.root "password" "bob") "bd",
                  Value.sealed
                    (Key.derive (Key.derive (Key.root "password" "bob") "bd") "encrypt")
                    (Key.derive (Key.derive (Key.root "password" "bob") "bd") "mac")
                    (Entity.access
                      { MetaUUID := UUID.nil,
                        MetaSourcekey := Key.nil,
                        InvitationUUID := UUID.derived (Key.root "password" "alice") "alicedbob",
                        InvitationSourcekey := Key.fresh 11,
                        InvitationList := UUID.nil,
                        ListKey := Key.nil,
                        IsOwner := false })),
                 (UUID.fresh 6,
                  Value.sealed
                    (Key.derive (Key.fresh 5) "encrypt")
                    (Key.derive (Key.fresh 5) "mac")
                    (Entity.file { Contents := c2, Next := UUID.fresh 13 })),
                 (UUID.fresh 13,
                  Value.sealed
                    (Key.derive (Key.fresh 5) "encrypt")
                    (Key.derive (Key.fresh 5) "mac")
                    (Entity.file { Contents := c3, Next := UUID.fresh 14 }))],
   keystore := [("alice public key", PubKey.pke 0),
                ("alice signature key", PubKey.sig 1),
                ("bob public key", PubKey.pke 2),
                ("bob signature key", PubKey.sig 3)],
   ctr := 15 }) := by
  unfold c2App2
  rw [aliceU_eq, c2App1_eq]
  rfl

theorem c3Store0_eq (c0 : List Nat) :
    c3Store0 c0 =
{ datastore := [(UUID.user "alice",
                 Value.sealed
                   (Key.derive (Key.root "password" "alice") "encrypt")
                   (Key.derive (Key.root "password" "alice") "mac")
                   (Entity.user { Username := "alice", RSAkey := 0, Sigkey := 1 })),
                (UUID.user "bob",
                 Value.sealed
                   (Key.derive (Key.root "password" "bob") "encrypt")
                   (Key.derive (Key.root "password" "bob") "mac")
                   (Entity.user { Username := "bob", RSAkey := 2, Sigkey := 3 })),
                (UUID.fresh 4,
                 Value.sealed
                   (Key.derive (Key.fresh 5) "encrypt")
                   (Key.derive (Key.fresh 5) "mac")
                   (Entity.file { Contents := c0, Next := UUID.fresh 6 })),
                (UUID.fresh 7,
                 Value.sealed
                   (Key.derive (Key.fresh 8) "encrypt")
                   (Key.derive (Key.fresh 8) "mac")
                   (Entity.meta
                     { Start := UUID.fresh 4,
                       Last := UUID.fresh 6,
                       FileSourcekey := Key.fresh 5 })),
                (UUID.fresh 10,
                 Value.sealed
                   (Key.derive (Key.fresh 9) "encrypt")
                   (Key.derive (Key.fresh 9) "mac")
                   (Entity.invList [])),
                (UUID.derived (Key.root "password" "alice") "g",
                 Value.sealed
                   (Key.derive (Key.derive (Key.root "password" "alice") "g") "encrypt")
                   (Key.derive (Key.derive (Key.root "password" "alice") "g") "mac")
                   (Entity.access
                     { MetaUUID := UUID.fresh 7,
                       MetaSourcekey := Key.fresh 8,
                       InvitationUUID := UUID.nil,
                       InvitationSourcekey := Key.nil,
                       InvitationList := UUID.fresh 10,
                       ListKey := Key.fresh 9,
                       IsOwner := true }))],
  keystore := [("alice public key", PubKey.pke 0),
               ("alice signature key", PubKey.sig 1),
               ("bob public key", PubKey.pke 2),
               ("bob signature key", PubKey.sig 3)],
  ctr := 11 } := by
  unfold c3Store0
  rw [aliceU_eq, stBob_eq]
  rfl

theorem c3Inv_eq (c0 : List Nat) :
    c3Inv c0 =
(Except.ok (UUID.fresh 12),
 { datastore := [(UUID.user "alice",
                  Value.sealed
                    (Key.derive (Key.root "password" "alice") "encrypt")
                    (Key.derive (Key.root "password" "alice") "mac")
                    (Entity.user { Username := "alice", RSAkey := 0, Sigkey := 1 })),
                 (UUID.user "bob",
                  Value.sealed
                    (Key.derive (Key.root "password" "bob") "encrypt")
                    (Key.derive (Key.root "password" "bob") "mac")
                    (Entity.user { Username := "bob", RSAkey := 2, Sigkey := 3 })),
                 (UUID.fresh 4,
                  Value.sealed
                    (Key.derive (Key.fresh 5) "encrypt")
                    (Key.derive (Key.fresh 5) "mac")
                    (Entity.file { Contents := c0, Next := UUID.fresh 6 })),
                 (UUID.fresh 7,
                  Value.sealed
                    (Key.derive (Key.fresh 8) "encrypt")
                    (Key.derive (Key.fresh 8) "mac")
                    (Entity.meta
                      { Start := UUID.fresh 4,
                        Last := UUID.fresh 6,
                        FileSourcekey := Key.fresh 5 })),
                 (UUID.fresh 10,
                  Value.sealed
                    (Key.derive (Key.fresh 9) "encrypt")
                    (Key.derive (Key.fresh 9) "mac")
                    (Entity.invList
                      [(UUID.derived (Key.root "password" "alice") "alicegbob",
                        Key.fresh 11)])),
                 (UUID.derived (Key.root "password" "alice") "g",
                  Value.sealed
                    (Key.derive (Key.derive (Key.root "password" "alice") "g") "encrypt")
                    (Key.derive (Key.derive (Key.root "password" "alice") "g") "mac")
                    (Entity.access
                      { MetaUUID := UUID.fresh 7,
                        MetaSourcekey := Key.fresh 8,
                        InvitationUUID := UUID.nil,
                        InvitationSourcekey := Key.nil,
                        InvitationList := UUID.fresh 10,
                        ListKey := Key.fresh 9,
                        IsOwner := true })),
                 (UUID.derived (Key.root "password" "alice") "alicegbob",
                  Value.sealed
                    (Key.derive (Key.fresh 11) "encrypt")
                    (Key.derive (Key.fresh 11) "mac")
                    (Entity.invitation
                      { MetaUUID := UUID.fresh 7, MetaSourcekey := Key.fresh 8 })),
                 (UUID.fresh 12,
                  Value.signedPke
                    2
                    1
                    { InvitationUUID := UUID.derived (Key.root "password" "alice") "alicegbob",
                      InvitationSourcekey := Key.fresh 11 })],
   keystore := [("alice public key", PubKey.pke 0),
                ("alice signature key", PubKey.sig 1),
                ("bob public key", PubKey.pke 2),
                ("bob signature key", PubKey.sig 3)],
   ctr := 13 }) := by
  unfold c3Inv
  rw [aliceU_eq, c3Store0_eq]
  rfl

theorem c3Acc_eq (c0 : List Nat) :
    c3Acc c0 =
{ datastore := [(UUID.user "alice",
                 Value.sealed
                   (Key.derive (Key.root "password" "alice") "encrypt")
                   (Key.derive (Key.root "password" "alice") "mac")
                   (Entity.user { Username := "alice", RSAkey := 0, Sigkey := 1 })),
                (UUID.user "bob",
                 Value.sealed
                   (Key.derive (Key.root "password" "bob") "encrypt")
                   (Key.derive (Key.root "password" "bob") "mac")
                   (Entity.user { Username := "bob", RSAkey := 2, Sigkey := 3 })),
                (UUID.fresh 4,
                 Value.sealed
                   (Key.derive (Key.fresh 5) "encrypt")
                   (Key.derive (Key.fresh 5) "mac")
                   (Entity.file { Contents := c0, Next := UUID.fresh 6 })),
                (UUID.fresh 7,
                 Value.sealed
                   (Key.derive (Key.fresh 8) "encrypt")
                   (Key.derive (Key.fresh 8) "mac")
                   (Entity.meta
                     { Start := UUID.fresh 4,
                       Last := UUID.fresh 6,
                       FileSourcekey := Key.fresh 5 })),
                (UUID.fresh 10,
                 Value.sealed
                   (Key.derive (Key.fresh 9) "encrypt")
                   (Key.derive (Key.fresh 9) "mac")
                   (Entity.invList
                     [(UUID.derived (Key.root "password" "alice") "alicegbob",
                       Key.fresh 11)])),
                (UUID.derived (Key.root "password" "alice") "g",
                 Value.sealed
                   (Key.derive (Key.derive (Key.root "password" "alice") "g") "encrypt")
                   (Key.derive (Key.derive (Key.root "password" "alice") "g") "mac")
                   (Entity.access
                     { MetaUUID := UUID.fresh 7,
                       MetaSourcekey := Key.fresh 8,
                       InvitationUUID := UUID.nil,
                       InvitationSourcekey := Key.nil,
                       InvitationList := UUID.fresh 10,
                       ListKey := Key.fresh 9,
                       IsOwner := true })),
                (UUID.derived (Key.root "password" "alice") "alicegbob",
                 Value.sealed
                   (Key.derive (Key.fresh 11) "encrypt")
                   (Key.derive (Key.fresh 11) "mac")
                   (Entity.invitation
                     { MetaUUID := UUID.fresh 7, MetaSourcekey := Key.fresh 8 })),
                (UUID.fresh 12,
                 Value.signedPke
                   2
                   1
                   { InvitationUUID := UUID.derived (Key.root "password" "alice") "alicegbob",
                     InvitationSourcekey := Key.fresh 11 }),
                (UUID.derived (Key.root "password" "bob") "bg",
                 Value.sealed
                   (Key.derive (Key.derive (Key.root "password" "bob") "bg") "encrypt")
                   (Key.derive (Key.derive (Key.root "password" "bob") "bg") "mac")
                   (Entity.access
                     { MetaUUID := UUID.nil,
                       MetaSourcekey := Key.nil,
                       InvitationUUID := UUID.derived (Key.root "password" "alice") "alicegbob",
                       InvitationSourcekey := Key.fresh 11,
                       InvitationList := UUID.nil,
                       ListKey := Key.nil,
                       IsOwner := false }))],
  keystore := [("alice public key", PubKey.pke 0),
               ("alice signature key", PubKey.sig 1),
               ("bob public key", PubKey.pke 2),
               ("bob signature key", PubKey.sig 3)],
  ctr := 13 } := by
  unfold c3Acc
  rw [bobU_eq, c3Inv_eq]
  rfl

theorem c3Store1_eq (c0 c1 : List Nat) :
    c3Store1 c0 c1 =
{ datastore := [(UUID.user "alice",
                 Value.sealed
                   (Key.derive (Key.root "password" "alice") "encrypt")
                   (Key.derive (Key.root "password" "alice") "mac")
                   (Entity.user { Username := "alice", RSAkey := 0, Sigkey := 1 })),
                (UUID.user "bob",
                 Value.sealed
                   (Key.derive (Key.root "password" "bob") "encrypt")
                   (Key.derive (Key.root "password" "bob") "mac")
                   (Entity.user { Username := "bob", RSAkey := 2, Sigkey := 3 })),
                (UUID.fresh 4,
                 Value.sealed
                   (Key.derive (Key.fresh 5) "encrypt")
                   (Key.derive (Key.fresh 5) "mac")
                   (Entity.file { Contents := c1, Next := UUID.fresh 13 })),
                (UUID.fresh 7,
                 Value.sealed
                   (Key.derive (Key.fresh 8) "encrypt")
                   (Key.derive (Key.fresh 8) "mac")
                   (Entity.meta
                     { Start := UUID.fresh 4,
                       Last := UUID.fresh 13,
                       FileSourcekey := Key.fresh 5 })),
                (UUID.fresh 10,
                 Value.sealed
                   (Key.derive (Key.fresh 9) "encrypt")
                   (Key.derive (Key.fresh 9) "mac")
                   (Entity.invList
                     [(UUID.derived (Key.root "password" "alice") "alicegbob",
                       Key.fresh 11)])),
                (UUID.derived (Key.root "password" "alice") "g",
                 Value.sealed
                   (Key.derive (Key.derive (Key.root "password" "alice") "g") "encrypt")
                   (Key.derive (Key.derive (Key.root "password" "alice") "g") "mac")
                   (Entity.access
                     { MetaUUID := UUID.fresh 7,
                       MetaSourcekey := Key.fresh 8,
                       InvitationUUID := UUID.nil,
                       InvitationSourcekey := Key.nil,
                       InvitationList := UUID.fresh 10,
                       ListKey := Key.fresh 9,
                       IsOwner := true })),
                (UUID.derived (Key.root "password" "alice") "alicegbob",
                 Value.sealed
                   (Key.derive (Key.fresh 11) "encrypt")
                   (Key.derive (Key.fresh 11) "mac")
                   (Entity.invitation
                     { MetaUUID := UUID.fresh 7, MetaSourcekey := Key.fresh 8 })),
                (UUID.fresh 12,
                 Value.signedPke
                   2
                   1
                   { InvitationUUID := UUID.derived (Key.root "password" "alice") "alicegbob",
                     InvitationSourcekey := Key.fresh 11 }),
                (UUID.derived (Key.root "password" "bob") "bg",
                 Value.sealed
                   (Key.derive (Key.derive (Key.root "password" "bob") "bg") "encrypt")
                   (Key.derive (Key.derive (Key.root "password" "bob") "bg") "mac")
                   (Entity.access
                     { MetaUUID := UUID.nil,
                       MetaSourcekey := Key.nil,
                       InvitationUUID := UUID.derived (Key.root "password" "alice") "alicegbob",
                       InvitationSourcekey := Key.fresh 11,
                       InvitationList := UUID.nil,
                       ListKey := Key.nil,
                       IsOwner := false }))],
  keystore := [("alice public key", PubKey.pke 0),
               ("alice signature key", PubKey.sig 1),
               ("bob public key", PubKey.pke 2),
               ("bob signature key", PubKey.sig 3)],
  ctr := 14 } := by
  unfold c3Store1
  rw [aliceU_eq, c3Acc_eq]
  rfl

theorem c3Store2_eq (c0 c1 c2 : List Nat) :
    c3Store2 c0 c1 c2 =
(Except.ok (),
 { datastore := [(UUID.user "alice",
                  Value.sealed
                    (Key.derive (Key.root "password" "alice") "encrypt")
                    (Key.derive (Key.root "password" "alice") "mac")
                    (Entity.user { Username := "alice", RSAkey := 0, Sigkey := 1 })),
                 (UUID.user "bob",
                  Value.sealed
                    (Key.derive (Key.root "password" "bob") "encrypt")
                    (Key.derive (Key.root "password" "bob") "mac")
                    (Entity.user { Username := "bob", RSAkey := 2, Sigkey := 3 })),
                 (UUID.fresh 4,
                  Value.sealed
                    (Key.derive (Key.fresh 5) "encrypt")
                    (Key.derive (Key.fresh 5) "mac")
                    (Entity.file { Contents := c2, Next := UUID.fresh 14 })),
                 (UUID.fresh 7,
                  Value.sealed
                    (Key.derive (Key.fresh 8) "encrypt")
                    (Key.derive (Key.fresh 8) "mac")
                    (Entity.meta
                      { Start := UUID.fresh 4,
                        Last := UUID.fresh 14,
                        FileSourcekey := Key.fresh 5 })),
                 (UUID.fresh 10,
                  Value.sealed
                    (Key.derive (Key.fresh 9) "encrypt")
                    (Key.derive (Key.fresh 9) "mac")
                    (Entity.invList
                      [(UUID.derived (Key.root "password" "alice") "alicegbob",
                        Key.fresh 11)])),
                 (UUID.derived (Key.root "password" "alice") "g",
                  Value.sealed
                    (Key.derive (Key.derive (Key.root "password" "alice") "g") "encrypt")
                    (Key.derive (Key.derive (Key.root "password" "alice") "g") "mac")
                    (Entity.access
                      { MetaUUID := UUID.fresh 7,
                        MetaSourcekey := Key.fresh 8,
                        InvitationUUID := UUID.nil,
                        InvitationSourcekey := Key.nil,
                        InvitationList := UUID.fresh 10,
                        ListKey := Key.fresh 9,
                        IsOwner := true })),
                 (UUID.derived (Key.root "password" "alice") "alicegbob",
                  Value.sealed
                    (Key.derive (Key.fresh 11) "encrypt")
                    (Key.derive (Key.fresh 11) "mac")
                    (Entity.invitation
                      { MetaUUID := UUID.fresh 7, MetaSourcekey := Key.fresh 8 })),
                 (UUID.fresh 12,
                  Value.signedPke
                    2
                    1
                    { InvitationUUID := UUID.derived (Key.root "password" "alice") "alicegbob",
                      InvitationSourcekey := Key.fresh 11 }),
                 (UUID.derived (Key.root "password" "bob") "bg",
                  Value.sealed
                    (Key.derive (Key.derive (Key.root "password" "bob") "bg") "encrypt")
                    (Key.derive (Key.derive (Key.root "password" "bob") "bg") "mac")
                    (Entity.access
                      { MetaUUID := UUID.nil,
                        MetaSourcekey := Key.nil,
                        InvitationUUID := UUID.derived (Key.root "password" "alice") "alicegbob",
                        InvitationSourcekey := Key.fresh 11,
                        InvitationList := UUID.nil,
                        ListKey := Key.nil,
                        IsOwner := false }))],
   keystore := [("alice public key", PubKey.pke 0),
                ("alice signature key", PubKey.sig 1),
                ("bob public key", PubKey.pke 2),
                ("bob signature key", PubKey.sig 3)],
   ctr := 15 }) := by
  unfold c3Store2
  rw [aliceU_eq, c3Store1_eq]
  rfl

theorem c4Store_eq (c : List Nat) :
    c4Store c =
{ datastore := [(UUID.user "alice",
                 Value.sealed
                   (Key.derive (Key.root "password" "alice") "encrypt")
                   (Key.derive (Key.root "password" "alice") "mac")
                   (Entity.user { Username := "alice", RSAkey := 0, Sigkey := 1 })),
                (UUID.user "bob",
                 Value.sealed
                   (Key.derive (Key.root "password" "bob") "encrypt")
                   (Key.derive (Key.root "password" "bob") "mac")
                   (Entity.user { Username := "bob", RSAkey := 2, Sigkey := 3 })),
                (UUID.fresh 4,
                 Value.sealed
                   (Key.derive (Key.fresh 5) "encrypt")
                   (Key.derive (Key.fresh 5) "mac")
                   (Entity.file { Contents := c, Next := UUID.fresh 6 })),
                (UUID.fresh 7,
                 Value.sealed
                   (Key.derive (Key.fresh 8) "encrypt")
                   (Key.derive (Key.fresh 8) "mac")
                   (Entity.meta
                     { Start := UUID.fresh 4,
                       Last := UUID.fresh 6,
                       FileSourcekey := Key.fresh 5 })),
                (UUID.fresh 10,
                 Value.sealed
                   (Key.derive (Key.fresh 9) "encrypt")
                   (Key.derive (Key.fresh 9) "mac")
                   (Entity.invList [])),
                (UUID.derived (Key.root "password" "alice") "h",
                 Value.sealed
                   (Key.derive (Key.derive (Key.root "password" "alice") "h") "encrypt")
                   (Key.derive (Key.derive (Key.root "password" "alice") "h") "mac")
                   (Entity.access
                     { MetaUUID := UUID.fresh 7,
                       MetaSourcekey := Key.fresh 8,
                       InvitationUUID := UUID.nil,
                       InvitationSourcekey := Key.nil,
                       InvitationList := UUID.fresh 10,
                       ListKey := Key.fresh 9,
                       IsOwner := true }))],
  keystore := [("alice public key", PubKey.pke 0),
               ("alice signature key", PubKey.sig 1),
               ("bob public key", PubKey.pke 2),
               ("bob signature key", PubKey.sig 3)],
  ctr := 11 } := by
  unfold c4Store
  rw [aliceU_eq, stBob_eq]
  rfl

theorem c4Revoke_eq (c : List Nat) :
    c4Revoke c =
(Except.error "filename was not shared with recipientUsername",
 { datastore := [(UUID.user "alice",
                  Value.sealed
                    (Key.derive (Key.root "password" "alice") "encrypt")
                    (Key.derive (Key.root "password" "alice") "mac")
                    (Entity.user { Username := "alice", RSAkey := 0, Sigkey := 1 })),
                 (UUID.user "bob",
                  Value.sealed
                    (Key.derive (Key.root "password" "bob") "encrypt")
                    (Key.derive (Key.root "password" "bob") "mac")
                    (Entity.user { Username := "bob", RSAkey := 2, Sigkey := 3 })),
                 (UUID.fresh 4,
                  Value.sealed
                    (Key.derive (Key.fresh 5) "encrypt")
                    (Key.derive (Key.fresh 5) "mac")
                    (Entity.file { Contents := c, Next := UUID.fresh 6 })),
                 (UUID.fresh 7,
                  Value.sealed
                    (Key.derive (Key.fresh 14) "encrypt")
                    (Key.derive (Key.fresh 14) "mac")
                    (Entity.meta
                      { Start := UUID.fresh 11,
                        Last := UUID.fresh 13,
                        FileSourcekey := Key.fresh 12 })),
                 (UUID.fresh 10,
                  Value.sealed
                    (Key.derive (Key.fresh 9) "encrypt")
                    (Key.derive (Key.fresh 9) "mac")
                    (Entity.invList [])),
                 (UUID.derived (Key.root "password" "alice") "h",
                  Value.sealed
                    (Key.derive (Key.derive (Key.root "password" "alice") "h") "encrypt")
                    (Key.derive (Key.derive (Key.root "password" "alice") "h") "mac")
                    (Entity.access
                      { MetaUUID := UUID.fresh 7,
                        MetaSourcekey := Key.fresh 8,
                        InvitationUUID := UUID.nil,
                        InvitationSourcekey := Key.nil,
                        InvitationList := UUID.fresh 10,
                        ListKey := Key.fresh 9,
                        IsOwner := true })),
                 (UUID.fresh 11,
                  Value.sealed
                    (Key.derive (Key.fresh 12) "encrypt")
                    (Key.derive (Key.fresh 12) "mac")
                    (Entity.file { Contents := c, Next := UUID.fresh 13 }))],
   keystore := [("alice public key", PubKey.pke 0),
                ("alice signature key", PubKey.sig 1),
                ("bob public key", PubKey.pke 2),
                ("bob signature key", PubKey.sig 3)],
   ctr := 15 }) := by
  unfold c4Revoke
  rw [aliceU_eq, c4Store_eq]
  rfl

theorem c6Store_eq (c : List Nat) :
    c6Store c =
{ datastore := [(UUID.user "alice",
                 Value.sealed
                   (Key.derive (Key.root "password" "alice") "encrypt")
                   (Key.derive (Key.root "password" "alice") "mac")
                   (Entity.user { Username := "alice", RSAkey := 0, Sigkey := 1 })),
                (UUID.user "bob",
                 Value.sealed
                   (Key.derive (Key.root "password" "bob") "encrypt")
                   (Key.derive (Key.root "password" "bob") "mac")
                   (Entity.user { Username := "bob", RSAkey := 2, Sigkey := 3 })),
                (UUID.fresh 4,
                 Value.sealed
                   (Key.derive (Key.fresh 5) "encrypt")
                   (Key.derive (Key.fresh 5) "mac")
                   (Entity.file { Contents := c, Next := UUID.fresh 6 })),
                (UUID.fresh 7,
                 Value.sealed
                   (Key.derive (Key.fresh 8) "encrypt")
                   (Key.derive (Key.fresh 8) "mac")
                   (Entity.meta
                     { Start := UUID.fresh 4,
                       Last := UUID.fresh 6,
                       FileSourcekey := Key.fresh 5 })),
                (UUID.fresh 10,
                 Value.sealed
                   (Key.derive (Key.fresh 9) "encrypt")
                   (Key.derive (Key.fresh 9) "mac")
                   (Entity.invList [])),
                (UUID.derived (Key.root "password" "alice") "k",
                 Value.sealed
                   (Key.derive (Key.derive (Key.root "password" "alice") "k") "encrypt")
                   (Key.derive (Key.derive (Key.root "password" "alice") "k") "mac")
                   (Entity.access
                     { MetaUUID := UUID.fresh 7,
                       MetaSourcekey := Key.fresh 8,
                       InvitationUUID := UUID.nil,
                       InvitationSourcekey := Key.nil,
                       InvitationList := UUID.fresh 10,
                       ListKey := Key.fresh 9,
                       IsOwner := true }))],
  keystore := [("alice public key", PubKey.pke 0),
               ("alice signature key", PubKey.sig 1),
               ("bob public key", PubKey.pke 2),
               ("bob signature key", PubKey.sig 3)],
  ctr := 11 } := by
  unfold c6Store
  rw [aliceU_eq, stBob_eq]
  rfl

theorem c6Inv_eq (c : List Nat) :
    c6Inv c =
(Except.ok (UUID.fresh 12),
 { datastore := [(UUID.user "alice",
                  Value.sealed
                    (Key.derive (Key.root "password" "alice") "encrypt")
                    (Key.derive (Key.root "password" "alice") "mac")
                    (Entity.user { Username := "alice", RSAkey := 0, Sigkey := 1 })),
                 (UUID.user "bob",
                  Value.sealed
                    (Key.derive (Key.root "password" "bob") "encrypt")
                    (Key.derive (Key.root "password" "bob") "mac")
                    (Entity.user { Username := "bob", RSAkey := 2, Sigkey := 3 })),
                 (UUID.fresh 4,
                  Value.sealed
                    (Key.derive (Key.fresh 5) "encrypt")
                    (Key.derive (Key.fresh 5) "mac")
                    (Entity.file { Contents := c, Next := UUID.fresh 6 })),
                 (UUID.fresh 7,
                  Value.sealed
                    (Key.derive (Key.fresh 8) "encrypt")
                    (Key.derive (Key.fresh 8) "mac")
                    (Entity.meta
                      { Start := UUID.fresh 4,
                        Last := UUID.fresh 6,
                        FileSourcekey := Key.fresh 5 })),
                 (UUID.fresh 10,
                  Value.sealed
                    (Key.derive (Key.fresh 9) "encrypt")
                    (Key.derive (Key.fresh 9) "mac")
                    (Entity.invList
                      [(UUID.derived (Key.root "password" "alice") "alicekbob",
                        Key.fresh 11)])),
                 (UUID.derived (Key.root "password" "alice") "k",
                  Value.sealed
                    (Key.derive (Key.derive (Key.root "password" "alice") "k") "encrypt")
                    (Key.derive (Key.derive (Key.root "password" "alice") "k") "mac")
                    (Entity.access
                      { MetaUUID := UUID.fresh 7,
                        MetaSourcekey := Key.fresh 8,
                        InvitationUUID := UUID.nil,
                        InvitationSourcekey := Key.nil,
                        InvitationList := UUID.fresh 10,
                        ListKey := Key.fresh 9,
                        IsOwner := true })),
                 (UUID.derived (Key.root "password" "alice") "alicekbob",
                  Value.sealed
                    (Key.derive (Key.fresh 11) "encrypt")
                    (Key.derive (Key.fresh 11) "mac")
                    (Entity.invitation
                      { MetaUUID := UUID.fresh 7, MetaSourcekey := Key.fresh 8 })),
                 (UUID.fresh 12,
                  Value.signedPke
                    2
                    1
                    { InvitationUUID := UUID.derived (Key.root "password" "alice") "alicekbob",
                      InvitationSourcekey := Key.fresh 11 })],
   keystore := [("alice public key", PubKey.pke 0),
                ("alice signature key", PubKey.sig 1),
                ("bob public key", PubKey.pke 2),
                ("bob signature key", PubKey.sig 3)],
   ctr := 13 }) := by
  unfold c6Inv
  rw [aliceU_eq, c6Store_eq]
  rfl

theorem c6Acc1_eq (c : List Nat) :
    c6Acc1 c =
(Except.ok (),
 { datastore := [(UUID.user "alice",
                  Value.sealed
                    (Key.derive (Key.root "password" "alice") "encrypt")
                    (Key.derive (Key.root "password" "alice") "mac")
                    (Entity.user { Username := "alice", RSAkey := 0, Sigkey := 1 })),
                 (UUID.user "bob",
                  Value.sealed
                    (Key.derive (Key.root "password" "bob") "encrypt")
                    (Key.derive (Key.root "password" "bob") "mac")
                    (Entity.user { Username := "bob", RSAkey := 2, Sigkey := 3 })),
                 (UUID.fresh 4,
                  Value.sealed
                    (Key.derive (Key.fresh 5) "encrypt")
                    (Key.derive (Key.fresh 5) "mac")
                    (Entity.file { Contents := c, Next := UUID.fresh 6 })),
                 (UUID.fresh 7,
                  Value.sealed
                    (Key.derive (Key.fresh 8) "encrypt")
                    (Key.derive (Key.fresh 8) "mac")
                    (Entity.meta
                      { Start := UUID.fresh 4,
                        Last := UUID.fresh 6,
                        FileSourcekey := Key.fresh 5 })),
                 (UUID.fresh 10,
                  Value.sealed
                    (Key.derive (Key.fresh 9) "encrypt")
                    (Key.derive (Key.fresh 9) "mac")
                    (Entity.invList
                      [(UUID.derived (Key.root "password" "alice") "alicekbob",
                        Key.fresh 11)])),
                 (UUID.derived (Key.root "password" "alice") "k",
                  Value.sealed
                    (Key.derive (Key.derive (Key.root "password" "alice") "k") "encrypt")
                    (Key.derive (Key.derive (Key.root "password" "alice") "k") "mac")
                    (Entity.access
                      { MetaUUID := UUID.fresh 7,
                        MetaSourcekey := Key.fresh 8,
                        InvitationUUID := UUID.nil,
                        InvitationSourcekey := Key.nil,
                        InvitationList := UUID.fresh 10,
                        ListKey := Key.fresh 9,
                        IsOwner := true })),
                 (UUID.derived (Key.root "password" "alice") "alicekbob",
                  Value.sealed
                    (Key.derive (Key.fresh 11) "encrypt")
                    (Key.derive (Key.fresh 11) "mac")
                    (Entity.invitation
                      { MetaUUID := UUID.fresh 7, MetaSourcekey := Key.fresh 8 })),
                 (UUID.fresh 12,
                  Value.signedPke
                    2
                    1
                    { InvitationUUID := UUID.derived (Key.root "password" "alice") "alicekbob",
                      InvitationSourcekey := Key.fresh 11 }),
                 (UUID.derived (Key.root "password" "bob") "bk",
                  Value.sealed
                    (Key.derive (Key.derive (Key.root "password" "bob") "bk") "encrypt")
                    (Key.derive (Key.derive (Key.root "password" "bob") "bk") "mac")
                    (Entity.access
                      { MetaUUID := UUID.nil,
                        MetaSourcekey := Key.nil,
                        InvitationUUID := UUID.derived (Key.root "password" "alice") "alicekbob",
                        InvitationSourcekey := Key.fresh 11,
                        InvitationList := UUID.nil,
                        ListKey := Key.nil,
                        IsOwner := false }))],
   keystore := [("alice public key", PubKey.pke 0),
                ("alice signature key", PubKey.sig 1),
                ("bob public key", PubKey.pke 2),
                ("bob signature key", PubKey.sig 3)],
   ctr := 13 }) := by
  unfold c6Acc1 c6Tok
  rw [bobU_eq, c6Inv_eq]
  rfl

theorem c6Acc2_eq (c : List Nat) :
    c6Acc2 c =
(Except.ok (),
 { datastore := [(UUID.user "alice",
                  Value.sealed
                    (Key.derive (Key.root "password" "alice") "encrypt")
                    (Key.derive (Key.root "password" "alice") "mac")
                    (Entity.user { Username := "alice", RSAkey := 0, Sigkey := 1 })),
                 (UUID.user "bob",
                  Value.sealed
                    (Key.derive (Key.root "password" "bob") "encrypt")
                    (Key.derive (Key.root "password" "bob") "mac")
                    (Entity.user { Username := "bob", RSAkey := 2, Sigkey := 3 })),
                 (UUID.fresh 4,
                  Value.sealed
                    (Key.derive (Key.fresh 5) "encrypt")
                    (Key.derive (Key.fresh 5) "mac")
                    (Entity.file { Contents := c, Next := UUID.fresh 6 })),
                 (UUID.fresh 7,
                  Value.sealed
                    (Key.derive (Key.fresh 8) "encrypt")
                    (Key.derive (Key.fresh 8) "mac")
                    (Entity.meta
                      { Start := UUID.fresh 4,
                        Last := UUID.fresh 6,
                        FileSourcekey := Key.fresh 5 })),
                 (UUID.fresh 10,
                  Value.sealed
                    (Key.derive (Key.fresh 9) "encrypt")
                    (Key.derive (Key.fresh 9) "mac")
                    (Entity.invList
                      [(UUID.derived (Key.root "password" "alice") "alicekbob",
                        Key.fresh 11)])),
                 (UUID.derived (Key.root "password" "alice") "k",
                  Value.sealed
                    (Key.derive (Key.derive (Key.root "password" "alice") "k") "encrypt")
                    (Key.derive (Key.derive (Key.root "password" "alice") "k") "mac")
                    (Entity.access
                      { MetaUUID := UUID.fresh 7,
                        MetaSourcekey := Key.fresh 8,
                        InvitationUUID := UUID.nil,
                        InvitationSourcekey := Key.nil,
                        InvitationList := UUID.fresh 10,
                        ListKey := Key.fresh 9,
                        IsOwner := true })),
                 (UUID.derived (Key.root "password" "alice") "alicekbob",
                  Value.sealed
                    (Key.derive (Key.fresh 11) "encrypt")
                    (Key.derive (Key.fresh 11) "mac")
                    (Entity.invitation
                      { MetaUUID := UUID.fresh 7, MetaSourcekey := Key.fresh 8 })),
                 (UUID.fresh 12,
                  Value.signedPke
                    2
                    1
                    { InvitationUUID := UUID.derived (Key.root "password" "alice") "alicekbob",
                      InvitationSourcekey := Key.fresh 11 }),
                 (UUID.derived (Key.root "password" "bob") "bk",
                  Value.sealed
                    (Key.derive (Key.derive (Key.root "password" "bob") "bk") "encrypt")
                    (Key.derive (Key.derive (Key.root "password" "bob") "bk") "mac")
                    (Entity.access
                      { MetaUUID := UUID.nil,
                        MetaSourcekey := Key.nil,
                        InvitationUUID := UUID.derived (Key.root "password" "alice") "alicekbob",
                        InvitationSourcekey := Key.fresh 11,
                        InvitationList := UUID.nil,
                        ListKey := Key.nil,
                        IsOwner := false })),
                 (UUID.derived (Key.root "password" "bob") "bk2",
                  Value.sealed
                    (Key.derive (Key.derive (Key.root "password" "bob") "bk2") "encrypt")
                    (Key.derive (Key.derive (Key.root "password" "bob") "bk2") "mac")
                    (Entity.access
                      { MetaUUID := UUID.nil,
                        MetaSourcekey := Key.nil,
                        InvitationUUID := UUID.derived (Key.root "password" "alice") "alicekbob",
                        InvitationSourcekey := Key.fresh 11,
                        InvitationList := UUID.nil,
                        ListKey := Key.nil,
                        IsOwner := false }))],
   keystore := [("alice public key", PubKey.pke 0),
                ("alice signature key", PubKey.sig 1),
                ("bob public key", PubKey.pke 2),
                ("bob signature key", PubKey.sig 3)],
   ctr := 13 }) := by
  unfold c6Acc2 c6Tok
  rw [bobU_eq, c6Acc1_eq, c6Inv_eq]
  rfl

theorem c7Store_eq (c : List Nat) :
    c7Store c =
{ datastore := [(UUID.user "alice",
                 Value.sealed
                   (Key.derive (Key.root "password" "alice") "encrypt")
                   (Key.derive (Key.root "password" "alice") "mac")
                   (Entity.user { Username := "alice", RSAkey := 0, Sigkey := 1 })),
                (UUID.user "bob",
                 Value.sealed
                   (Key.derive (Key.root "password" "bob") "encrypt")
                   (Key.derive (Key.root "password" "bob") "mac")
                   (Entity.user { Username := "bob", RSAkey := 2, Sigkey := 3 })),
                (UUID.fresh 4,
                 Value.sealed
                   (Key.derive (Key.fresh 5) "encrypt")
                   (Key.derive (Key.fresh 5) "mac")
                   (Entity.file { Contents := c, Next := UUID.fresh 6 })),
                (UUID.fresh 7,
                 Value.sealed
                   (Key.derive (Key.fresh 8) "encrypt")
                   (Key.derive (Key.fresh 8) "mac")
                   (Entity.meta
                     { Start := UUID.fresh 4,
                       Last := UUID.fresh 6,
                       FileSourcekey := Key.fresh 5 })),
                (UUID.fresh 10,
                 Value.sealed
                   (Key.derive (Key.fresh 9) "encrypt")
                   (Key.derive (Key.fresh 9) "mac")
                   (Entity.invList [])),
                (UUID.derived (Key.root "password" "alice") "m",
                 Value.sealed
                   (Key.derive (Key.derive (Key.root "password" "alice") "m") "encrypt")
                   (Key.derive (Key.derive (Key.root "password" "alice") "m") "mac")
                   (Entity.access
                     { MetaUUID := UUID.fresh 7,
                       MetaSourcekey := Key.fresh 8,
                       InvitationUUID := UUID.nil,
                       InvitationSourcekey := Key.nil,
                       InvitationList := UUID.fresh 10,
                       ListKey := Key.fresh 9,
                       IsOwner := true }))],
  keystore := [("alice public key", PubKey.pke 0),
               ("alice signature key", PubKey.sig 1),
               ("bob public key", PubKey.pke 2),
               ("bob signature key", PubKey.sig 3)],
  ctr := 11 } := by
  unfold c7Store
  rw [aliceU_eq, stBob_eq]
  rfl

theorem shRev_eq (c : List Nat) :
    shRev c = (shRevoke c).2 := rfl

-- Claim theorems

/-- C8: `InitUser` fails when the username is empty, and fails when a User
Record already exists at the username's deterministic user UUID
(`GetUserUUID`); on both error paths it returns the state unchanged, so the
blob store, the key directory and the randomness counter are not mutated. -/
theorem C8_initUser_conflict_atomic (u p : String) (st : State) :
    (u = "" → InitUser u p st = (.error "username cannot be empty", st)) ∧
    (∀ v, st.dsGet (GetUserUUID u) = some v →
      (∃ e, (InitUser u p st).1 = .error e) ∧ (InitUser u p st).2 = st) := by
  constructor
  · intro h
    simp [InitUser, h]
  · intro v hv
    by_cases h : u = ""
    · simp [InitUser, h]
    · simp [InitUser, h, hv]

/-- C8 witness: the empty-username error on the empty state, and the
already-registered error after alice's registration, both leaving the state
unchanged. -/
theorem C8_initUser_conflict_atomic_witness :
    InitUser "" "p" emptyState = (.error "username cannot be empty", emptyState) ∧
    (∃ e, (InitUser "alice" "x" stAlice).1 = .error e) ∧
    (InitUser "alice" "x" stAlice).2 = stAlice := by
  refine ⟨(C8_initUser_conflict_atomic "" "p" emptyState).1 rfl, ?_, ?_⟩
  · exact ((C8_initUser_conflict_atomic "alice" "x" stAlice).2 _ (by rw [stAlice_eq]; rfl)).1
  · exact ((C8_initUser_conflict_atomic "alice" "x" stAlice).2 _ (by rw [stAlice_eq]; rfl)).2

/-- C9: `GetUser` returns a session exactly when the username is nonempty,
the User Record blob is present at `GetUserUUID u`, it is sealed under the
keys derived from `GetSourceKey u p` (so the HMAC check passes and it
decrypts as a user record), and the decoded username equals the login
username; it fails whenever any of these conditions is violated. -/
theorem C9_getUser_identity_binding (u p : String) (st : State) :
    (∃ usr, GetUser u p st = .ok usr) ↔
      u ≠ "" ∧ ∃ r : UserRecord,
        st.dsGet (GetUserUUID u) =
          some (.sealed (.derive (GetSourceKey u p) ENCRYPT)
            (.derive (GetSourceKey u p) MAC) (.user r)) ∧
        r.Username = u := by
  by_cases hu : u = ""
  · simp [GetUser, hu]
  · cases hv : st.dsGet (GetUserUUID u) with
    | none => simp [GetUser, hu, hv]
    | some v =>
      cases v with
      | signedPke a b im => simp [GetUser, hu, hv, CheckTag, GetTwoHASHKDFKeys]
      | sealed ek mk e =>
        by_cases hmk : mk = .derive (GetSourceKey u p) MAC
        · subst hmk
          cases e with
          | user r =>
            by_cases hek : ek = .derive (GetSourceKey u p) ENCRYPT
            · subst hek
              by_cases hr : r.Username = u
              · simp [GetUser, hu, hv, CheckTag, DecryptUserMsg, GetTwoHASHKDFKeys, hr]
              · simp [GetUser, hu, hv, CheckTag, DecryptUserMsg, GetTwoHASHKDFKeys, hr]
            · simp [GetUser, hu, hv, CheckTag, DecryptUserMsg, GetTwoHASHKDFKeys, hek]
          | access a => simp [GetUser, hu, hv, CheckTag, DecryptUserMsg, GetTwoHASHKDFKeys]
          | invitation i => simp [GetUser, hu, hv, CheckTag, DecryptUserMsg, GetTwoHASHKDFKeys]
          | invList l => simp [GetUser, hu, hv, CheckTag, DecryptUserMsg, GetTwoHASHKDFKeys]
          | meta m => simp [GetUser, hu, hv, CheckTag, DecryptUserMsg, GetTwoHASHKDFKeys]
          | file f => simp [GetUser, hu, hv, CheckTag, DecryptUserMsg, GetTwoHASHKDFKeys]
        · simp [GetUser, hu, hv, CheckTag, GetTwoHASHKDFKeys, hmk]

/-- C10: the password is never validated: for any nonempty unused username,
`InitUser` with the empty-string password succeeds, and `GetUser` with the
empty-string password on the resulting state returns the very same session
(the password enters only the root-key derivation `GetSourceKey`). -/
theorem C10_empty_password_accepted (u : String) (st : State) (h1 : u ≠ "")
    (h2 : st.dsGet (GetUserUUID u) = none) :
    ∃ usr : User, (InitUser u "" st).1 = .ok usr ∧
      GetUser u "" (InitUser u "" st).2 = .ok usr ∧ usr.Username = u := by
  simp only [State.dsGet] at h2
  refine ⟨⟨u, st.ctr, st.ctr + 1, .root "" u⟩, ?_, ?_, rfl⟩
  · simp [InitUser, h1, h2, GetAsynchKeys, GetSourceKey, GetTwoHASHKDFKeys, EncryptThenMac,
      State.dsGet]
  · simp [InitUser, h1, h2, GetAsynchKeys, GetSourceKey, GetTwoHASHKDFKeys, EncryptThenMac,
      GetUser, State.dsSet, State.ksSet, State.dsGet, CheckTag, DecryptUserMsg,
      assocGet_assocSet_self]

/-- C10 witness: registering "alice" with the empty password on the empty
state and logging in again with the empty password. -/
theorem C10_empty_password_accepted_witness :
    ∃ usr : User, (InitUser "alice" "" emptyState).1 = .ok usr ∧
      GetUser "alice" "" (InitUser "alice" "" emptyState).2 = .ok usr ∧
      usr.Username = "alice" :=
  C10_empty_password_accepted "alice" emptyState (by decide) rfl


/-- C7: `CreateInvitation` fails when the recipient has no public key in the
key directory, fails when the recipient is the caller itself, and fails when
the caller has no Access blob for the filename in its namespace; when all
three preconditions hold on a file the caller can resolve, it returns a
freshly drawn, previously unoccupied invitation-token UUID (scenario: alice
shares her file "m" with bob). -/
theorem C7_createInvitation_preconditions :
    (∀ (userdata : User) (filename recipientUsername : String) (st : State),
      st.ksGet (recipientUsername ++ " public key") = none →
      isErr (CreateInvitation userdata filename recipientUsername st).1 = true) ∧
    (∀ (userdata : User) (filename : String) (st : State),
      isErr (CreateInvitation userdata filename userdata.Username st).1 = true) ∧
    (∀ (userdata : User) (filename recipientUsername : String) (st : State),
      st.dsGet (GetAccessUUID userdata filename) = none →
      isErr (CreateInvitation userdata filename recipientUsername st).1 = true) ∧
    (∀ c : List Nat,
      (CreateInvitation aliceU "m" "bob" (c7Store c)).1 = .ok (.fresh 12) ∧
      (c7Store c).dsGet (.fresh 12) = none) := by
  refine ⟨?_, ?_, ?_, ?_⟩
  · intro userdata filename recipientUsername st h
    simp [CreateInvitation, h, isErr]
  · intro userdata filename st
    cases hk : st.ksGet (userdata.Username ++ " public key") with
    | none => simp [CreateInvitation, hk, isErr]
    | some pk => simp [CreateInvitation, hk, isErr]
  · intro userdata filename recipientUsername st h
    cases hk : st.ksGet (recipientUsername ++ " public key") with
    | none => simp [CreateInvitation, hk, isErr]
    | some pk =>
      by_cases hr : recipientUsername = userdata.Username
      · subst hr
        simp [CreateInvitation, hk, isErr]
      · simp [CreateInvitation, hk, hr, h, isErr]
  · intro c
    constructor
    · rw [aliceU_eq, c7Store_eq]
      rfl
    · rw [c7Store_eq]
      rfl

/-- C7 witness: the three error paths at concrete inputs (unknown recipient
"eve", self-invitation, missing file "zz"), discharged through the theorem. -/
theorem C7_createInvitation_preconditions_witness :
    isErr (CreateInvitation aliceU "m" "eve" (c7Store [1])).1 = true ∧
    isErr (CreateInvitation aliceU "m" "alice" (c7Store [1])).1 = true ∧
    isErr (CreateInvitation bobU "zz" "alice" stBob).1 = true := by
  refine ⟨?_, ?_, ?_⟩
  · exact C7_createInvitation_preconditions.1 aliceU "m" "eve" (c7Store [1])
      (by rw [c7Store_eq]; rfl)
  · exact C7_createInvitation_preconditions.2.1 aliceU "m" (c7Store [1])
  · exact C7_createInvitation_preconditions.2.2.1 bobU "zz" "alice" stBob
      (by rw [stBob_eq, bobU_eq]; rfl)

/-- C4: code bug witness — revoking a recipient that never appears in the
Invitation List does fail with the authorization error, but only after
`RevokeAccess` has already rewritten the file chain and re-sealed the
Metadata under a fresh source key, so the owner's own `LoadFile` fails
afterwards; the error path is not write-free (scenario: alice owns "h",
never shared it, and revokes bob). -/
theorem C4_failed_revoke_leaves_partial_writes (c : List Nat) :
    (c4Revoke c).1 = .error "filename was not shared with recipientUsername" ∧
    LoadFile aliceU "h" (c4Store c) = .ok c ∧
    isErr (LoadFile aliceU "h" (c4Revoke c).2) = true := by
  refine ⟨?_, ?_, ?_⟩
  · rw [c4Revoke_eq]
  · rw [aliceU_eq, c4Store_eq]
    rfl
  · rw [aliceU_eq, c4Revoke_eq]
    rfl

/-- C1 counterexample: the claim asserts that after the revocation bob fails
on CreateInvitation; with contents [1,2,3], bob's CreateInvitation on his
name "bf" of the revoked file nevertheless returns success. -/
theorem C1_counterexample_create_succeeds :
    isOk (CreateInvitation bobU "bf" "doris" (shRev [1, 2, 3])).1 = true := by
  rw [shRev_eq, shRevoke_eq, bobU_eq]
  rfl

/-- C1 (amended): after alice revokes bob on "f", bob and charles (who
received access through bob) fail on LoadFile and AppendToFile, but their
CreateInvitation still returns success (the invitation it writes carries
the stale meta source key); alice and the non-revoked direct sharee doris
continue to succeed on LoadFile, AppendToFile and CreateInvitation, and
alice's LoadFile returns the same contents as before the revocation. -/
theorem C1_revocation_soundness_amended (c x : List Nat) :
    (shRevoke c).1 = .ok () ∧
    isErr (LoadFile bobU "bf" (shRev c)) = true ∧
    isErr (AppendToFile bobU "bf" x (shRev c)).1 = true ∧
    isErr (LoadFile charlesU "cf" (shRev c)) = true ∧
    isErr (AppendToFile charlesU "cf" x (shRev c)).1 = true ∧
    isOk (CreateInvitation bobU "bf" "doris" (shRev c)).1 = true ∧
    isOk (CreateInvitation charlesU "cf" "doris" (shRev c)).1 = true ∧
    LoadFile aliceU "f" (shAccCharles c) = .ok c ∧
    LoadFile aliceU "f" (shRev c) = .ok c ∧
    LoadFile dorisU "df" (shRev c) = .ok c ∧
    isOk (AppendToFile aliceU "f" x (shRev c)).1 = true ∧
    isOk (AppendToFile dorisU "df" x (shRev c)).1 = true ∧
    isOk (CreateInvitation aliceU "f" "charles" (shRev c)).1 = true := by
  refine ⟨?_, ?_, ?_, ?_, ?_, ?_, ?_, ?_, ?_, ?_, ?_, ?_, ?_⟩
  · rw [shRevoke_eq]
  · rw [shRev_eq, shRevoke_eq, bobU_eq]
    rfl
  · rw [shRev_eq, shRevoke_eq, bobU_eq]
    rfl
  · rw [shRev_eq, shRevoke_eq, charlesU_eq]
    rfl
  · rw [shRev_eq, shRevoke_eq, charlesU_eq]
    rfl
  · rw [shRev_eq, shRevoke_eq, bobU_eq]
    rfl
  · rw [shRev_eq, shRevoke_eq, charlesU_eq]
    rfl
  · rw [shAccCharles_eq, aliceU_eq]
    rfl
  · rw [shRev_eq, shRevoke_eq, aliceU_eq]
    rfl
  · rw [shRev_eq, shRevoke_eq, dorisU_eq]
    rfl
  · rw [shRev_eq, shRevoke_eq, aliceU_eq]
    rfl
  · rw [shRev_eq, shRevoke_eq, dorisU_eq]
    rfl
  · rw [shRev_eq, shRevoke_eq, aliceU_eq]
    rfl

/-- C5 counterexample: the claim asserts that the Invitation blob at bob's
invitation UUID was rewritten or deleted so that bob's MAC check on it
fails; with contents [1,2,3] the blob is unchanged by the revocation, and
bob's access resolution through it (`GetMetaUUIDAndSourceKey`, which
performs the MAC check under bob's retained source key) succeeds. -/
theorem C5_counterexample_invitation_intact :
    (shRev [1, 2, 3]).dsGet (GetInvitationUUID aliceU "bob" "f") =
      (shAccCharles [1, 2, 3]).dsGet (GetInvitationUUID aliceU "bob" "f") ∧
    isOk (GetMetaUUIDAndSourceKey (shBobAccess [1, 2, 3]) (shRev [1, 2, 3])) = true := by
  constructor
  · rw [shRev_eq, shRevoke_eq, shAccCharles_eq, aliceU_eq]
    rfl
  · unfold shBobAccess
    rw [shRev_eq, shRevoke_eq, bobU_eq]
    rfl

/-- C5 (amended): revocation leaves the revoked sharee's Invitation blob at
its UUID unchanged, still sealed under the source key bob retains, so bob's
MAC check on it succeeds during access resolution and yields the stale
`(metaUUID, metaSourceKey)`; revocation instead re-seals the Metadata at the
stable metaUUID under a fresh source key, so bob's resolution fails at the
Metadata integrity check and his LoadFile fails there. -/
theorem C5_revoked_invitation_left_stale (c : List Nat) :
    (shRev c).dsGet (GetInvitationUUID aliceU "bob" "f") =
      (shAccCharles c).dsGet (GetInvitationUUID aliceU "bob" "f") ∧
    (∃ v, (shRev c).dsGet (GetInvitationUUID aliceU "bob" "f") = some v) ∧
    (∃ metaU staleKey,
      GetMetaUUIDAndSourceKey (shBobAccess c) (shRev c) = .ok (metaU, staleKey) ∧
      CheckTag (getSomeValue ((shRev c).dsGet metaU)) (.derive staleKey MAC) =
        .error "integrity check failed") ∧
    isErr (LoadFile bobU "bf" (shRev c)) = true := by
  refine ⟨?_, ⟨?_, ?_⟩, ⟨.fresh 11, .fresh 12, ?_, ?_⟩, ?_⟩
  · rw [shRev_eq, shRevoke_eq, shAccCharles_eq, aliceU_eq]
    rfl
  · exact .sealed (.derive (.fresh 15) ENCRYPT) (.derive (.fresh 15) MAC)
      (.invitation ⟨.fresh 11, .fresh 12⟩)
  · rw [shRev_eq, shRevoke_eq, aliceU_eq]
    rfl
  · unfold shBobAccess
    rw [shRev_eq, shRevoke_eq, bobU_eq]
    rfl
  · rw [shRev_eq, shRevoke_eq]
    rfl
  · rw [shRev_eq, shRevoke_eq, bobU_eq]
    rfl

/-- C6 counterexample: the claim asserts the invitation token cannot be used
for a second successful AcceptInvitation; with contents [1,2,3], bob accepts
alice's token for "k" as "bk" and then accepts the very same token again as
"bk2", and both accepts succeed. -/
theorem C6_counterexample_double_accept :
    (c6Acc1 [1, 2, 3]).1 = .ok () ∧ (c6Acc2 [1, 2, 3]).1 = .ok () := by
  constructor
  · rw [c6Acc1_eq]
  · rw [c6Acc2_eq]

/-- C6 (amended): `AcceptInvitation` reads but does not consume the
Invitation-Pointer blob: after bob's successful accept, the blob at the
token UUID is unchanged and still present, and a second AcceptInvitation by
the same recipient under a different unused filename succeeds as well,
installing a second Access through which the same file contents load. -/
theorem C6_token_not_consumed (c : List Nat) :
    (c6Acc1 c).1 = .ok () ∧
    (c6Acc1 c).2.dsGet (c6Tok c) = (c6Inv c).2.dsGet (c6Tok c) ∧
    (∃ v, (c6Acc1 c).2.dsGet (c6Tok c) = some v) ∧
    (c6Acc2 c).1 = .ok () ∧
    LoadFile bobU "bk" (c6Acc2 c).2 = .ok c ∧
    LoadFile bobU "bk2" (c6Acc2 c).2 = .ok c := by
  refine ⟨?_, ?_, ⟨?_, ?_⟩, ?_, ?_, ?_⟩
  · rw [c6Acc1_eq]
  · unfold c6Tok
    rw [c6Acc1_eq, c6Inv_eq]
    rfl
  · exact .signedPke 2 1 ⟨GetInvitationUUID aliceU "bob" "k", .fresh 11⟩
  · unfold c6Tok
    rw [c6Acc1_eq, c6Inv_eq, aliceU_eq]
    rfl
  · rw [c6Acc2_eq]
  · rw [c6Acc2_eq, bobU_eq]
    rfl
  · rw [c6Acc2_eq, bobU_eq]
    rfl

/-- C2: store then two appends yield the concatenation on LoadFile, both for
the owner alice and for the sharee bob reading through the indirection
chain; the second append writes exactly one new File block at the Metadata's
current lastUUID (a previously unoccupied slot) with a fresh next, updates
only the Metadata's lastUUID and the randomness counter, and reads no
existing File blocks (it succeeds even with every File block deleted). -/
theorem C2_store_append_append_load (c1 c2 c3 : List Nat) :
    (c2App1 c1 c2).1 = .ok () ∧
    (c2App2 c1 c2 c3).1 = .ok () ∧
    LoadFile aliceU "d" (c2App2 c1 c2 c3).2 = .ok (c1 ++ c2 ++ c3) ∧
    LoadFile bobU "bd" (c2App2 c1 c2 c3).2 = .ok (c1 ++ c2 ++ c3) ∧
    (∃ metaU startU lastU nextU fsk mek mhk,
      (c2App1 c1 c2).2.dsGet metaU = some (.sealed mek mhk (.meta ⟨startU, lastU, fsk⟩)) ∧
      (c2App1 c1 c2).2.dsGet lastU = none ∧
      (c2App2 c1 c2 c3).2 =
        State.dsSet (State.dsSet
            { (c2App1 c1 c2).2 with ctr := ((c2App1 c1 c2).2).ctr + 1 }
            lastU (.sealed (.derive fsk ENCRYPT) (.derive fsk MAC) (.file ⟨c3, nextU⟩)))
          metaU (.sealed mek mhk (.meta ⟨startU, nextU, fsk⟩))) ∧
    (AppendToFile aliceU "d" c3 (State.dropFileBlocks (c2App1 c1 c2).2)).1 = .ok () := by
  refine ⟨?_, ?_, ?_, ?_,
    ⟨.fresh 7, .fresh 4, .fresh 13, .fresh 14, .fresh 5,
      .derive (.fresh 8) ENCRYPT, .derive (.fresh 8) MAC, ?_, ?_, ?_⟩, ?_⟩
  · rw [c2App1_eq]
  · rw [c2App2_eq]
  · rw [c2App2_eq, aliceU_eq]
    show _ = Except.ok ((c1 ++ c2) ++ c3)
    rfl
  · rw [c2App2_eq, bobU_eq]
    show _ = Except.ok ((c1 ++ c2) ++ c3)
    rfl
  · rw [c2App1_eq]
    rfl
  · rw [c2App1_eq]
    rfl
  · rw [c2App2_eq, c2App1_eq]
    rfl
  · rw [aliceU_eq, c2App1_eq]
    rfl

/-- C3: overwriting replaces in place: with an existing Access for "g",
after two further StoreFile calls LoadFile returns exactly the last
contents, both for alice and for the sharee bob resolving through the same
Metadata; the second store writes its single new File block at the
Metadata's existing startUUID, preserves startUUID and fileContentSourceKey,
and updates only the Metadata's lastUUID (and the randomness counter). -/
theorem C3_overwrite_in_place (c0 c1 c2 : List Nat) :
    (c3Store2 c0 c1 c2).1 = .ok () ∧
    LoadFile aliceU "g" (c3Store2 c0 c1 c2).2 = .ok c2 ∧
    LoadFile bobU "bg" (c3Store2 c0 c1 c2).2 = .ok c2 ∧
    (∃ metaU startU lastU nextU fsk mek mhk,
      (c3Store1 c0 c1).dsGet metaU = some (.sealed mek mhk (.meta ⟨startU, lastU, fsk⟩)) ∧
      (c3Store2 c0 c1 c2).2.dsGet metaU =
        some (.sealed mek mhk (.meta ⟨startU, nextU, fsk⟩)) ∧
      (c3Store2 c0 c1 c2).2 =
        State.dsSet (State.dsSet
            { c3Store1 c0 c1 with ctr := (c3Store1 c0 c1).ctr + 1 }
            startU (.sealed (.derive fsk ENCRYPT) (.derive fsk MAC) (.file ⟨c2, nextU⟩)))
          metaU (.sealed mek mhk (.meta ⟨startU, nextU, fsk⟩))) := by
  refine ⟨?_, ?_, ?_,
    ⟨.fresh 7, .fresh 4, .fresh 13, .fresh 14, .fresh 5,
      .derive (.fresh 8) ENCRYPT, .derive (.fresh 8) MAC, ?_, ?_, ?_⟩⟩
  · rw [c3Store2_eq]
  · rw [c3Store2_eq, aliceU_eq]
    rfl
  · rw [c3Store2_eq, bobU_eq]
    rfl
  · rw [c3Store1_eq]
    rfl
  · rw [c3Store2_eq]
    rfl
  · rw [c3Store2_eq, c3Store1_eq]
    rfl

end FileShare

